import Mathlib

/-
Verification development for the DataDelta table-comparison library
(src/datadelta/datadelta.py).  The pandas dataframes are shallowly
embedded as a `Table` structure (ordered named/dtyped columns holding
row-major cell values); every diff operation of the source is translated
definition-by-definition.  Python floats are modelled by `Rat`; pandas
`NaN` is the `Value.null` cell.  Behaviour that the source only reaches
when the primary key is present / unique is proved under the
corresponding hypotheses, which are stated explicitly on each theorem.
-/

/-- Cell values of a table: integers, strings, or a missing value
(pandas `NaN`). -/
inductive Value where
  | int : Int → Value
  | str : String → Value
  | null : Value
deriving DecidableEq

/-- Whether a cell is the missing value (pandas `isnull`). -/
def Value.isNull : Value → Bool
  | .null => true
  | _ => false

/-- Strict lexicographic order on strings by code point (what Python
string comparison does), phrased over the character lists so it
evaluates by kernel reduction. -/
def strLtB (a b : String) : Bool := decide (a.data < b.data)

/-- Non-strict string order: `a ≤ b` iff not `b < a`. -/
def strLeB (a b : String) : Bool := !strLtB b a

/-- Order fact about `strLeB` used by the comparison instances. -/
def strLeB_total (a b : String) : strLeB a b = true ∨ strLeB b a = true := by
  unfold strLeB strLtB
  rcases le_total a.data b.data with h | h
  · exact Or.inl (by simp [not_lt_of_le h])
  · exact Or.inr (by simp [not_lt_of_le h])

/-- Order fact about `strLeB` used by the comparison instances. -/
def strLeB_le {a b : String} (h : strLeB a b = true) : a.data ≤ b.data := by
  unfold strLeB strLtB at h
  simp only [Bool.not_eq_true', decide_eq_false_iff_not] at h
  exact not_lt.mp h

/-- Order fact about `strLeB` used by the comparison instances. -/
def strLeB_of_le {a b : String} (h : a.data ≤ b.data) : strLeB a b = true := by
  unfold strLeB strLtB
  simp [not_lt_of_le h]

/-- Order fact about `strLeB` used by the comparison instances. -/
def strLeB_trans {a b c : String} (h1 : strLeB a b = true)
    (h2 : strLeB b c = true) : strLeB a c = true :=
  strLeB_of_le (le_trans (strLeB_le h1) (strLeB_le h2))

/-- Order fact about `strLeB` used by the comparison instances. -/
def strLeB_antisymm {a b : String} (h1 : strLeB a b = true)
    (h2 : strLeB b a = true) : a = b := by
  have hd : a.data = b.data := le_antisymm (strLeB_le h1) (strLeB_le h2)
  cases a
  cases b
  exact congrArg String.mk hd

/-- Boolean total order on cell values used to model `sort_values`:
integers before strings, missing values last (pandas `na_position`
default), payloads ordered by their own linear orders. -/
def vleB : Value → Value → Bool
  | .int a, .int b => decide (a ≤ b)
  | .int _, .str _ => true
  | .int _, .null => true
  | .str _, .int _ => false
  | .str a, .str b => strLeB a b
  | .str _, .null => true
  | .null, .null => true
  | .null, _ => false

/-- The order on values as a proposition. -/
def vle (a b : Value) : Prop := vleB a b = true

instance : DecidableRel vle := fun a b => by
  unfold vle; infer_instance

instance : IsTotal Value vle :=
  ⟨fun a b => by
    cases a <;> cases b <;> simp only [vle, vleB, decide_eq_true_eq] <;>
      first
        | exact Or.inl trivial
        | exact Or.inr trivial
        | exact le_total _ _
        | exact strLeB_total _ _⟩

instance : IsTrans Value vle :=
  ⟨fun a b c h1 h2 => by
    cases a <;> cases b <;> cases c <;>
        simp only [vle, vleB, decide_eq_true_eq] at h1 h2 ⊢ <;>
      first
        | trivial
        | exact le_trans h1 h2
        | exact strLeB_trans h1 h2
        | exact Bool.noConfusion h1
        | exact Bool.noConfusion h2⟩

instance : IsAntisymm Value vle :=
  ⟨fun a b h1 h2 => by
    cases a <;> cases b <;>
        simp only [vle, vleB, decide_eq_true_eq] at h1 h2 <;>
      first
        | rfl
        | exact congrArg _ (le_antisymm h1 h2)
        | exact congrArg _ (strLeB_antisymm h1 h2)
        | exact Bool.noConfusion h1
        | exact Bool.noConfusion h2⟩

/-- A pandas dataframe: a header of (column name, declared dtype) pairs
and row-major cell data. -/
structure Table where
  header : List (String × String)
  rows : List (List Value)
deriving DecidableEq

/-- The column names of a table, in column order. -/
def colNames (t : Table) : List String := t.header.map Prod.fst

/-- Number of records (`len(df)`). -/
def nrows (t : Table) : Nat := t.rows.length

/-- Number of columns (`len(df.columns)`). -/
def ncols (t : Table) : Nat := t.header.length

/-- Index of the first column with the given name, if any. -/
def findIdxO (c : String) : List String → Option Nat
  | [] => none
  | x :: xs => if x = c then some 0 else (findIdxO c xs).map (· + 1)

/-- The cell of row `r` in the column named `c` (missing column or short
row reads as the missing value; the Python source would raise instead,
so theorems that depend on the cell carry a `c ∈ colNames t`
hypothesis). -/
def cellByName (t : Table) (r : List Value) (c : String) : Value :=
  match findIdxO c (colNames t) with
  | some i => r.getD i .null
  | none => .null

/-- The primary-key column of a table, as the list `df[primary_key]`. -/
def pkList (t : Table) (pk : String) : List Value :=
  t.rows.map (fun r => cellByName t r pk)

/-- The declared dtype of the first column with the given name
(`df.dtypes[c]`). -/
def dtypeOf (t : Table) (c : String) : String :=
  ((t.header.find? (fun h => h.1 = c)).map Prod.snd).getD ""

/-- An exact (not necessarily reduced) fraction, modelling the float
quotients of the source.  Keeping the raw numerator/denominator avoids
gcd normalization; every comparison below is by cross-multiplication,
valid because all denominators produced by the embedding are counts. -/
structure Frac where
  num : Int
  den : Nat
deriving DecidableEq

/-- The quotient of two counts, `a / b`. -/
def fracOfNats (a b : Nat) : Frac := ⟨(a : Int), b⟩

/-- Multiply a fraction by a natural scalar. -/
def Frac.mulNat (q : Frac) (k : Nat) : Frac := ⟨q.num * (k : Int), q.den⟩

/-- Numeric strict order on fractions by cross-multiplication. -/
def fracLt (a b : Frac) : Prop := a.num * (b.den : Int) < b.num * (a.den : Int)

instance : DecidableRel fracLt := fun a b => by
  unfold fracLt; infer_instance

/-- Numeric equality on fractions by cross-multiplication. -/
def fracNumEq (a b : Frac) : Prop := a.num * (b.den : Int) = b.num * (a.den : Int)

instance (a b : Frac) : Decidable (fracNumEq a b) := by
  unfold fracNumEq; infer_instance

/-- The fraction is numerically positive. -/
def fracPos (q : Frac) : Prop := fracLt ⟨0, 1⟩ q

instance (q : Frac) : Decidable (fracPos q) := by
  unfold fracPos; infer_instance

/-- Round-half-even of a fraction to an integer, the rounding mode of
`np.around` and Python `format` (denominator assumed positive, which
holds on every reachable path of the source). -/
def roundHalfEvenF (q : Frac) : Int :=
  let d : Int := (q.den : Int)
  let f : Int := q.num.fdiv d
  let r2 : Int := 2 * (q.num - f * d)
  if r2 < d then f else if d < r2 then f + 1 else if f % 2 = 0 then f else f + 1

/-- `np.around(q, 1)`: round to one decimal place. -/
def around1 (q : Frac) : Frac := ⟨roundHalfEvenF ⟨q.num * 10, q.den⟩, 10⟩

/-- Insert a thousands separator before every later group of three
digits of a reversed digit list (helper for `formatComma`). -/
def commaRevAux : List Char → Nat → List Char
  | [], _ => []
  | c :: cs, i => (if i ≠ 0 ∧ i % 3 = 0 then [',', c] else [c]) ++ commaRevAux cs (i + 1)

/-- Python format `"{:,}"`: decimal rendering with thousands
separators. -/
def formatComma (n : Int) : String :=
  let ds := (toString n.natAbs).data.reverse
  let s := String.mk ((commaRevAux ds 0).reverse)
  if n < 0 then "-" ++ s else s

/-- Python format `"{:.1%}"`: a fraction as a percentage with one
decimal place. -/
def formatPct1 (q : Frac) : String :=
  let m := roundHalfEvenF ⟨q.num * 1000, q.den⟩
  let a := m / 10
  let b := (m % 10).natAbs
  s!"{a}.{b}%"

/-- One row of the dataframe summary built by `get_df_summary`:
column name, non-null count, rounded percentage of non-null records,
declared dtype. -/
structure SummaryRow where
  column_names : String
  n_valid_records : Nat
  prop_valid_records : Frac
  datatype : String
deriving DecidableEq

/-- The report produced by `get_df_summary`. -/
structure DfSummary where
  number_of_records : Nat
  number_of_columns : Nat
  primary_key : String
  is_primary_key_unique : Bool
  summary_table : List SummaryRow
deriving DecidableEq

/-- Non-null count of a column (`df[c].notnull().sum()`). -/
def nValid (t : Table) (c : String) : Nat :=
  t.rows.countP (fun r => !(cellByName t r c).isNull)

/-- Sort order of the summary table: non-null count descending, then
column name ascending (`sort_values(["n_valid_records", "column_names"],
ascending=[False, True])`). -/
def sumLe (a b : SummaryRow) : Prop :=
  b.n_valid_records < a.n_valid_records ∨
    (a.n_valid_records = b.n_valid_records ∧ strLeB a.column_names b.column_names = true)

instance : DecidableRel sumLe := fun a b => by
  unfold sumLe; infer_instance

/-- Embedding of `get_df_summary`.  The `assert not df.empty` of the
source is the `error` branch; a missing primary-key column is the
`KeyError` that `df[primary_key]` would raise. -/
def get_df_summary (input_df : Table) (primary_key : String)
    (column_subset : Option (List String)) (max_cols : Nat) :
    Except String DfSummary :=
  if nrows input_df = 0 ∨ ncols input_df = 0 then .error "Dataframe is empty"
  else if primary_key ∉ colNames input_df then .error "KeyError"
  else
    let pkvals := (pkList input_df primary_key).filter (fun v => !v.isNull)
    let is_unique := !pkvals.isEmpty && decide pkvals.Nodup
    let base := (colNames input_df).map (fun c =>
      { column_names := c, n_valid_records := nValid input_df c,
        prop_valid_records :=
          around1 ((fracOfNats (nValid input_df c) (nrows input_df)).mulNat 100),
        datatype := dtypeOf input_df c : SummaryRow })
    let sorted := List.insertionSort sumLe base
    let filtered := match column_subset with
      | none => sorted
      | some sub => sorted.filter (fun row => decide (row.column_names ∈ primary_key :: sub))
    let final := if max_cols < filtered.length then filtered.take max_cols else filtered
    .ok { number_of_records := nrows input_df, number_of_columns := ncols input_df,
          primary_key := primary_key, is_primary_key_unique := is_unique,
          summary_table := final }

/-- The `column_name_changes` report section.  The `values` dict of the
source is modelled by the two optional lists; an absent key is `none`. -/
structure ColumnNameChanges where
  is_equal : Bool
  summary : List String
  removed_columns : Option (List String)
  added_columns : Option (List String)
deriving DecidableEq

/-- Columns unique to the first column list (`set(a) - set(b)` of the
source, enumerated in first-occurrence order since Python set iteration
order is unspecified). -/
def uniqueCols (a b : List String) : List String :=
  a.dedup.filter (fun c => decide (c ∉ b))

/-- Embedding of `check_column_names`. -/
def check_column_names (old_df new_df : Table) : ColumnNameChanges :=
  if (colNames old_df).toFinset = (colNames new_df).toFinset then
    { is_equal := true, summary := [], removed_columns := none, added_columns := none }
  else
    let columns_only_in_old := uniqueCols (colNames old_df) (colNames new_df)
    let columns_only_in_new := uniqueCols (colNames new_df) (colNames old_df)
    if 0 < columns_only_in_old.length then
      let n := columns_only_in_old.length
      { is_equal := false,
        summary := [s!"{n} Unique column(s) in the old table"],
        removed_columns := some columns_only_in_old, added_columns := none }
    else if 0 < columns_only_in_new.length then
      let n := columns_only_in_new.length
      { is_equal := false,
        summary := [s!"{n} Unique column(s) in the new table"],
        removed_columns := none, added_columns := some columns_only_in_new }
    else
      { is_equal := false, summary := [], removed_columns := none, added_columns := none }

/-- The `record_count_changes` report section. -/
structure RecordCountChanges where
  is_equal : Bool
  summary : List String
  removed_records : Option (List Value)
  added_records : Option (List Value)
deriving DecidableEq

/-- Primary-key values unique to the first table
(`set(a[pk]) - set(b[pk])`, first-occurrence order). -/
def uniqueIds (a b : Table) (pk : String) : List Value :=
  (pkList a pk).dedup.filter (fun v => decide (v ∉ pkList b pk))

/-- Embedding of `check_record_count`. -/
def check_record_count (old_df new_df : Table) (primary_key : String) :
    RecordCountChanges :=
  let num_old_records : Int := nrows old_df
  let num_new_records : Int := nrows new_df
  let removed_ids := uniqueIds old_df new_df primary_key
  let added_ids := uniqueIds new_df old_df primary_key
  if removed_ids.length = 0 ∧ added_ids.length = 0 then
    { is_equal := true, summary := [], removed_records := none, added_records := none }
  else
    let so := formatComma num_old_records
    let sn := formatComma num_new_records
    let sd := formatComma (num_new_records - num_old_records)
    let base := [s!"The old table has {so} records",
                 s!"The new table has {sn} records",
                 s!"Change in the total number of records: {sd}"]
    let sr := formatComma (removed_ids.length : Int)
    let sa := formatComma (added_ids.length : Int)
    let withRemoved := if 0 < removed_ids.length
      then base ++ [s!"{sr} record(s) removed"] else base
    let withAdded := if 0 < added_ids.length
      then withRemoved ++ [s!"{sa} record(s) added"] else withRemoved
    { is_equal := false,
      summary := withAdded,
      removed_records := if 0 < removed_ids.length then some removed_ids else none,
      added_records := if 0 < added_ids.length then some added_ids else none }

/-- The `datatype_changes` report section; `summary_table` rows are
(column name, old dtype, new dtype). -/
structure DatatypeChanges where
  is_equal : Bool
  summary : List String
  summary_table : Option (List (String × String × String))
  changed_columns : Option (List String)
deriving DecidableEq

/-- Embedding of `check_datatypes`.  `pd.concat([old.dtypes, new.dtypes],
axis=1).dropna()` aligns the two dtype series by column name and keeps
the names present in both, in the old table's column order. -/
def check_datatypes (old_df new_df : Table) (primary_key : String)
    (column_subset : Option (List String)) : DatatypeChanges :=
  let combined_df := ((colNames old_df).filter (fun c => decide (c ∈ colNames new_df))).map
    (fun c => (c, dtypeOf old_df c, dtypeOf new_df c))
  let columns_with_changes := match column_subset with
    | some sub => combined_df.filter
        (fun x => decide (x.2.1 ≠ x.2.2 ∧ x.1 ∈ primary_key :: sub))
    | none => combined_df.filter (fun x => decide (x.2.1 ≠ x.2.2))
  if columns_with_changes.length = 0 then
    { is_equal := true, summary := [], summary_table := none, changed_columns := none }
  else
    let cnt := formatComma (columns_with_changes.length : Int)
    let pct := formatPct1 (fracOfNats columns_with_changes.length combined_df.length)
    { is_equal := false,
      summary := [s!"{cnt} column(s) have different types ({pct} of shared columns)"],
      summary_table := some columns_with_changes,
      changed_columns := some (columns_with_changes.map (·.1)) }

/-- The `record_value_changes` report section; `summary_table` rows are
(column name, percentage of shared records changed). -/
structure ValueChanges where
  is_equal : Bool
  summary : List String
  summary_table : Option (List (String × Frac))
  changed_records : Option (List Value)
  changed_columns : Option (List String)
deriving DecidableEq

/-- The list of column names present in both tables
(`list(set(old.columns).intersection(set(new.columns)))`), enumerated in
the old table's first-occurrence order since Python set iteration order
is unspecified; the same list is used to project both tables, which is
what keeps the two views column-aligned. -/
def sharedColumns (old_df new_df : Table) : List String :=
  (colNames old_df).dedup.filter (fun c => decide (c ∈ colNames new_df))

/-- The set of primary-key values present in both tables. -/
def sharedKeys (old_df new_df : Table) (primary_key : String) : Finset Value :=
  (pkList old_df primary_key).toFinset ∩ (pkList new_df primary_key).toFinset

/-- The effective column list of a comparison: all shared columns when
no subset is given, otherwise the subset with the primary key appended
when absent (lines 205-215 of the source). -/
def effectiveCols (old_df new_df : Table) (primary_key : String) :
    Option (List String) → List String
  | none => sharedColumns old_df new_df
  | some sub => if primary_key ∈ sub then sub else sub ++ [primary_key]

/-- Requested subset columns that are not shared by both tables
(`np.setdiff1d(column_subset, columns_in_both_tables)` is nonempty iff
this list is nonempty). -/
def subsetMissing (column_subset : List String) (shared : List String) : List String :=
  column_subset.filter (fun c => decide (c ∉ shared))

/-- Projection of one row onto a column list (`df.loc[:, cols]`). -/
def projectRow (t : Table) (cols : List String) (r : List Value) : List Value :=
  cols.map (cellByName t r)

/-- `fillna("na")`: replace every missing cell by the literal string
"na". -/
def fillRow (r : List Value) : List Value :=
  r.map (fun v => if v.isNull then Value.str "na" else v)

/-- Row order used by `sort_values(primary_key)`: compare the cells in
column position `i`. -/
def rowLe (i : Nat) (r s : List Value) : Prop :=
  vle (r.getD i .null) (s.getD i .null)

instance : DecidableRel (rowLe i) := fun r s => by
  unfold rowLe; infer_instance

instance : IsTotal (List Value) (rowLe i) := ⟨fun r s => total_of vle _ _⟩

instance : IsTrans (List Value) (rowLe i) :=
  ⟨fun _ _ _ h1 h2 => trans_of vle h1 h2⟩

/-- One aligned view built by `get_records_in_both_tables`: rows whose
primary key is shared, projected to `cols`, sorted by primary key,
missing values filled with "na".  The view keeps the source column
dtypes for its header. -/
def sharedView (t : Table) (primary_key : String) (keys : Finset Value)
    (cols : List String) : Table :=
  let filtered := t.rows.filter (fun r => decide (cellByName t r primary_key ∈ keys))
  let projected := filtered.map (projectRow t cols)
  let pkIdx := (findIdxO primary_key cols).getD cols.length
  let sorted := List.insertionSort (rowLe pkIdx) projected
  { header := cols.map (fun c => (c, dtypeOf t c)), rows := sorted.map fillRow }

/-- Embedding of `get_records_in_both_tables`.  The `error` branch is
the `assert len(np.setdiff1d(column_subset, columns_in_both_tables)) == 0`
validation of the source. -/
def get_records_in_both_tables (old_df new_df : Table) (primary_key : String)
    (column_subset : Option (List String)) : Except String (Table × Table) :=
  let records_in_both_tables := sharedKeys old_df new_df primary_key
  let columns_in_both_tables := sharedColumns old_df new_df
  match column_subset with
  | none =>
      .ok (sharedView old_df primary_key records_in_both_tables columns_in_both_tables,
           sharedView new_df primary_key records_in_both_tables columns_in_both_tables)
  | some sub =>
      if subsetMissing sub columns_in_both_tables = [] then
        let cols := effectiveCols old_df new_df primary_key (some sub)
        .ok (sharedView old_df primary_key records_in_both_tables cols,
             sharedView new_df primary_key records_in_both_tables cols)
      else .error "columns are not contained in both tables"

/-- Number of positions at which two aligned rows hold different values
(one row of `np.sum(old != new, axis=1)`). -/
def rowDiff (r s : List Value) : Nat :=
  (r.zip s).countP (fun p => decide (p.1 ≠ p.2))

/-- Sort order of the per-column change-proportion table: proportion
descending, then column name ascending. -/
def propLe (a b : String × Frac) : Prop :=
  fracLt b.2 a.2 ∨ (fracNumEq a.2 b.2 ∧ strLeB a.1 b.1 = true)

instance : DecidableRel propLe := fun a b => by
  unfold propLe; infer_instance

/-- The row-index-aligned pairs of old-view and new-view rows that the
element-wise frame comparison of the source walks. -/
def pairedRows (shared_old_df_values shared_new_df_values : Table) :
    List (List Value × List Value) :=
  shared_old_df_values.rows.zip shared_new_df_values.rows

/-- The primary keys of the aligned rows that differ somewhere
(`shared_new_df_values[primary_key].loc[np.sum(old != new, axis=1) > 0]`). -/
def recordsWithChanges (shared_old_df_values shared_new_df_values : Table)
    (primary_key : String) : List Value :=
  ((pairedRows shared_old_df_values shared_new_df_values).filter
      (fun p => decide (0 < rowDiff p.1 p.2))).map
    (fun p => cellByName shared_new_df_values p.2 primary_key)

/-- Body of `check_chg_in_values` after the shared views have been
extracted (source lines 307-343). -/
def chgReport (shared_old_df_values shared_new_df_values : Table)
    (primary_key : String) : ValueChanges :=
  let paired := pairedRows shared_old_df_values shared_new_df_values
  let records_with_changes :=
    recordsWithChanges shared_old_df_values shared_new_df_values primary_key
  if records_with_changes.length = 0 then
    { is_equal := true, summary := [], summary_table := none,
      changed_records := none, changed_columns := none }
  else
    let nshared : Nat := shared_new_df_values.rows.length
    let props := (colNames shared_new_df_values).map (fun c =>
      (c, fracOfNats (paired.countP (fun p =>
            decide (cellByName shared_old_df_values p.1 c ≠
                    cellByName shared_new_df_values p.2 c))) nshared))
    let sortedProps := List.insertionSort propLe props
    let filteredProps := sortedProps.filter (fun p => decide (fracPos p.2))
    let scaled := filteredProps.map (fun p => (p.1, p.2.mulNat 100))
    let cnt := formatComma (records_with_changes.length : Int)
    let pct := formatPct1 (fracOfNats records_with_changes.length nshared)
    { is_equal := false,
      summary := [s!"{cnt} records have changed ({pct} of shared records)"],
      summary_table := some scaled,
      changed_records := some records_with_changes,
      changed_columns := some (scaled.map (·.1)) }

/-- Embedding of `check_chg_in_values`. -/
def check_chg_in_values (old_df new_df : Table) (primary_key : String)
    (column_subset : Option (List String)) : Except String ValueChanges := do
  let (shared_old_df_values, shared_new_df_values) ←
    get_records_in_both_tables old_df new_df primary_key column_subset
  pure (chgReport shared_old_df_values shared_new_df_values primary_key)

/-- Suffix every non-key column name (`old_df.columns = [col + "_OLD" ...]`). -/
def renameSuffix (t : Table) (primary_key suffix : String) : Table :=
  { t with header := (t.header.map
      (fun h => if h.1 = primary_key then h else (h.1 ++ suffix, h.2))) }

/-- Prefix test on character lists (helper for the substring test). -/
def isPrefB : List Char → List Char → Bool
  | [], _ => true
  | _ :: _, [] => false
  | a :: as, b :: bs => a == b && isPrefB as bs

/-- Substring membership on character lists (Python `sub in s`). -/
def listInfixB (sub : List Char) : List Char → Bool
  | [] => sub.isEmpty
  | c :: cs => isPrefB sub (c :: cs) || listInfixB sub cs

/-- Python `sub in s` on strings. -/
def strContains (s sub : String) : Bool := listInfixB sub.data s.data

/-- Python `name.split(".", 1)[0]`: the prefix before the first dot
(the whole string when there is none). -/
def headBeforeDot (s : String) : String :=
  String.mk (s.data.takeWhile (fun c => c != '.'))

/-- Inner merge of two tables on the primary key (`pd.merge(a, b,
how='inner', on=pk)`): left rows paired with every right row holding the
same key; the right key column appears once. -/
def mergeInner (a b : Table) (primary_key : String) : Table :=
  let bIdx := findIdxO primary_key (colNames b)
  let dropB (r : List Value) : List Value :=
    match bIdx with
    | some i => r.eraseIdx i
    | none => r
  let bHeader := match bIdx with
    | some i => b.header.eraseIdx i
    | none => b.header
  { header := a.header ++ bHeader,
    rows := a.rows.flatMap (fun r =>
      (b.rows.filter (fun s =>
        decide (cellByName b s primary_key = cellByName a r primary_key))).map
        (fun s => r ++ dropB s)) }

/-- Keep only the listed columns, in the listed order (models
`set_index` / column reindexing / `reset_index` and column selection). -/
def selectCols (t : Table) (cols : List String) : Table :=
  { header := cols.map (fun c => (c, dtypeOf t c)),
    rows := t.rows.map (fun r => cols.map (cellByName t r)) }

/-- Body of `get_record_changes_comparison_df` once the value-change
report is in hand (source lines 367-395): `none` models the Python
`None` return when there are no changed records. -/
def comparisonFromReport (old_df new_df : Table) (primary_key : String)
    (column_subset : Option (List String)) (changes_report : ValueChanges) :
    Option Table :=
  let oldR := renameSuffix old_df primary_key "_OLD"
  let newR := renameSuffix new_df primary_key "_NEW"
  if changes_report.is_equal then
    none
  else
    let changed := (changes_report.changed_records).getD []
    let oldF : Table := { oldR with rows := (oldR.rows.filter
      (fun r => decide (cellByName oldR r primary_key ∈ changed))) }
    let newF : Table := { newR with rows := (newR.rows.filter
      (fun r => decide (cellByName newR r primary_key ∈ changed))) }
    let merged := mergeInner oldF newF primary_key
    let others := (colNames merged).filter (fun c => decide (c ≠ primary_key))
    let sortedCols := List.insertionSort (fun a b : String => strLeB a b = true) others
    let final := selectCols merged (primary_key :: sortedCols)
    match column_subset with
    | none => some final
    | some sub =>
        let keep := primary_key :: (colNames final).filter
          (fun c => sub.any (fun k => strContains c (k ++ "_")))
        some (selectCols final keep)

/-- Embedding of `get_record_changes_comparison_df`. -/
def get_record_changes_comparison_df (old_df new_df : Table) (primary_key : String)
    (column_subset : Option (List String)) : Except String (Option Table) := do
  let changes_report ← check_chg_in_values old_df new_df primary_key column_subset
  pure (comparisonFromReport old_df new_df primary_key column_subset changes_report)

/-- The consolidated report.  `report_date` is wall-clock output and is
omitted from the embedding; every other field of the source report is
present. -/
structure ConsolidatedReport where
  title_text : String
  column_subset : Option (List String)
  is_all_equal : Bool
  old_df_table_summary : DfSummary
  new_df_table_summary : DfSummary
  column_name_changes : ColumnNameChanges
  record_count_changes : RecordCountChanges
  datatype_changes : DatatypeChanges
  record_value_changes : ValueChanges
deriving DecidableEq

/-- Embedding of `create_consolidated_report`.  `meta.is_all_equal` is
`old_df.equals(new_df)`: same shape, labels, dtypes and cell values,
with missing values compared as equal. -/
def create_consolidated_report (old_df new_df : Table) (primary_key : String)
    (column_subset : Option (List String)) :
    Except String (ConsolidatedReport × Option Table) := do
  let is_all_equal := decide (old_df = new_df)
  let old_sum ← get_df_summary old_df primary_key column_subset 100
  let new_sum ← get_df_summary new_df primary_key column_subset 100
  let colrep := check_column_names old_df new_df
  let recrep := check_record_count old_df new_df primary_key
  let dtrep := check_datatypes old_df new_df primary_key column_subset
  let valrep ← check_chg_in_values old_df new_df primary_key column_subset
  let cmp ← get_record_changes_comparison_df old_df new_df primary_key column_subset
  pure ({ title_text := "DataDelta: Dataset Comparison Report",
          column_subset := column_subset,
          is_all_equal := is_all_equal,
          old_df_table_summary := old_sum,
          new_df_table_summary := new_sum,
          column_name_changes := colrep,
          record_count_changes := recrep,
          datatype_changes := dtrep,
          record_value_changes := valrep }, cmp)

/-- A file system: a map from path to file contents, for the export
functions. -/
def FS := String → Option String

/-- The empty file system. -/
def fsEmpty : FS := fun _ => none

/-- Create or replace the file at path `p` with contents `c`. -/
def fsWrite (fs : FS) (p c : String) : FS :=
  fun q => if q = p then some c else fs q

/-- Embedding of `export_html_report`.  The Jinja template rendering is
presentational and is abstracted as the pre-rendered string
`rendered_html`; the claim-relevant behaviour is the file handling.
Faithful to the source, `with open(export_file_name, 'w')` truncates or
creates the file at the *original* name before the existence check, and
a successful render is written through that same handle. -/
def export_html_report (fs : FS) (rendered_html : String)
    (export_file_name : String) (overwrite_existing_file : Bool) : FS × Bool :=
  let fs1 := fsWrite fs export_file_name ""
  let checked_name := if strContains export_file_name ".html" then export_file_name
    else export_file_name ++ ".html"
  if (fs1 checked_name).isSome && !overwrite_existing_file then
    (fs1, false)
  else
    (fsWrite fs1 export_file_name rendered_html, true)

/-- Embedding of `save_pickle`.  `pickle.dumps(input_dict)` is abstracted
as the pre-serialized string `pickled`.  The source function has no
`return` statement on the success path, so it returns Python `None`,
modelled as `none`; the refusal path returns `False` (`some false`). -/
def save_pickle (fs : FS) (pickled : String) (export_file_name : String)
    (overwrite_existing_file : Bool) : FS × Option Bool :=
  let name := if strContains export_file_name ".pickle" then export_file_name
    else headBeforeDot export_file_name ++ ".pickle"
  if (fs name).isSome && !overwrite_existing_file then
    (fs, some false)
  else
    (fsWrite fs name pickled, none)

/-
Object-store model for the frame claim: Python dataframe variables are
references into a store of table objects.  Every public operation begins
with `df = df.copy()`, modelled as allocating a fresh cell; all later
in-place operations of the source act either on those fresh copies
(modelled as store writes at the copies' indices) or on frames newly
constructed inside the call (pure values, never aliased to the store).
The `_prog` functions trace exactly the allocations and writes of the
source; their results are computed by the functional embeddings above.
-/

/-- An object store of dataframes. -/
abbrev Store := List Table

/-- The table with no columns and no rows. -/
def emptyTable : Table := { header := [], rows := [] }

/-- Dereference a store cell. -/
def readT (s : Store) (i : Nat) : Table := s.getD i emptyTable

/-- Overwrite the cell `i` (models an in-place mutation through the
reference `i`). -/
def writeT (s : Store) (i : Nat) (t : Table) : Store := s.set i t

/-- Store trace of `get_df_summary`: copies its input (fresh cell at the
end of the store), then only reads. -/
def get_df_summary_prog (s : Store) (i : Nat) (primary_key : String)
    (column_subset : Option (List String)) (max_cols : Nat) :
    Store × Except String DfSummary :=
  let i1 := s.length
  let s1 := s ++ [readT s i]
  (s1, get_df_summary (readT s1 i1) primary_key column_subset max_cols)

/-- Store trace of `check_column_names`: copies both inputs, then only
reads. -/
def check_column_names_prog (s : Store) (i j : Nat) :
    Store × ColumnNameChanges :=
  let i1 := s.length
  let s1 := s ++ [readT s i]
  let j1 := s1.length
  let s2 := s1 ++ [readT s1 j]
  (s2, check_column_names (readT s2 i1) (readT s2 j1))

/-- Store trace of `check_record_count`. -/
def check_record_count_prog (s : Store) (i j : Nat) (primary_key : String) :
    Store × RecordCountChanges :=
  let i1 := s.length
  let s1 := s ++ [readT s i]
  let j1 := s1.length
  let s2 := s1 ++ [readT s1 j]
  (s2, check_record_count (readT s2 i1) (readT s2 j1) primary_key)

/-- Store trace of `check_datatypes`. -/
def check_datatypes_prog (s : Store) (i j : Nat) (primary_key : String)
    (column_subset : Option (List String)) : Store × DatatypeChanges :=
  let i1 := s.length
  let s1 := s ++ [readT s i]
  let j1 := s1.length
  let s2 := s1 ++ [readT s1 j]
  (s2, check_datatypes (readT s2 i1) (readT s2 j1) primary_key column_subset)

/-- Store trace of `get_records_in_both_tables`. -/
def get_records_in_both_tables_prog (s : Store) (i j : Nat) (primary_key : String)
    (column_subset : Option (List String)) : Store × Except String (Table × Table) :=
  let i1 := s.length
  let s1 := s ++ [readT s i]
  let j1 := s1.length
  let s2 := s1 ++ [readT s1 j]
  (s2, get_records_in_both_tables (readT s2 i1) (readT s2 j1) primary_key column_subset)

/-- Store trace of `check_chg_in_values`: copies both inputs and passes
the copies to the extractor (which copies again). -/
def check_chg_in_values_prog (s : Store) (i j : Nat) (primary_key : String)
    (column_subset : Option (List String)) : Store × Except String ValueChanges :=
  let i1 := s.length
  let s1 := s ++ [readT s i]
  let j1 := s1.length
  let s2 := s1 ++ [readT s1 j]
  let s3 := (get_records_in_both_tables_prog s2 i1 j1 primary_key column_subset).1
  (s3, check_chg_in_values (readT s3 i1) (readT s3 j1) primary_key column_subset)

/-- Store trace of `get_record_changes_comparison_df`: copies both
inputs, runs the value differ on the copies, then assigns
`old_df.columns` / `new_df.columns` — writes through the references to
the copies, never through the caller's references. -/
def get_record_changes_comparison_df_prog (s : Store) (i j : Nat)
    (primary_key : String) (column_subset : Option (List String)) :
    Store × Except String (Option Table) :=
  let i1 := s.length
  let s1 := s ++ [readT s i]
  let j1 := s1.length
  let s2 := s1 ++ [readT s1 j]
  let s3 := (check_chg_in_values_prog s2 i1 j1 primary_key column_subset).1
  let s4 := writeT s3 i1 (renameSuffix (readT s3 i1) primary_key "_OLD")
  let s5 := writeT s4 j1 (renameSuffix (readT s4 j1) primary_key "_NEW")
  (s5, get_record_changes_comparison_df (readT s i) (readT s j) primary_key column_subset)

/-- Store trace of `create_consolidated_report`: copies both inputs and
hands the copies to every sub-operation in source order. -/
def create_consolidated_report_prog (s : Store) (i j : Nat) (primary_key : String)
    (column_subset : Option (List String)) :
    Store × Except String (ConsolidatedReport × Option Table) :=
  let i1 := s.length
  let s1 := s ++ [readT s i]
  let j1 := s1.length
  let s2 := s1 ++ [readT s1 j]
  let s3 := (get_df_summary_prog s2 i1 primary_key column_subset 100).1
  let s4 := (get_df_summary_prog s3 j1 primary_key column_subset 100).1
  let s5 := (check_column_names_prog s4 i1 j1).1
  let s6 := (check_record_count_prog s5 i1 j1 primary_key).1
  let s7 := (check_datatypes_prog s6 i1 j1 primary_key column_subset).1
  let s8 := (check_chg_in_values_prog s7 i1 j1 primary_key column_subset).1
  let s9 := (get_record_changes_comparison_df_prog s8 i1 j1 primary_key column_subset).1
  (s9, create_consolidated_report (readT s i) (readT s j) primary_key column_subset)

/-- The store `t` agrees with `s` on every cell of `s`: all of a
caller's objects are intact. -/
def storeAgrees (s t : Store) : Prop :=
  s.length ≤ t.length ∧ ∀ k, k < s.length → t[k]? = s[k]?

/-
Specification-side definitions.  These restate what the claims quantify
over — shared keys, the aligned row belonging to one key, and the set of
keys whose aligned rows differ — independently of the row-sorting,
zipping implementation of the source, so that the value-differ theorems
compare the implementation against them.
-/

/-- The aligned view row belonging to primary-key value `k`: the (under
a unique primary key, unique) row of `t` whose key is `k`, projected to
`cols` and na-filled. -/
def viewRowForKey (t : Table) (cols : List String) (pk : String) (k : Value) :
    List Value :=
  match t.rows.find? (fun r => decide (cellByName t r pk = k)) with
  | some r => fillRow (projectRow t cols r)
  | none => []

/-- The shared primary-key values whose aligned old-view and new-view
rows differ in at least one position. -/
def specChangedKeys (old_df new_df : Table) (pk : String) (cols : List String) :
    Finset Value :=
  (sharedKeys old_df new_df pk).filter
    (fun k => viewRowForKey old_df cols pk k ≠ viewRowForKey new_df cols pk k)

/-- The changed-record count a `ValueChanges` section reports: the
length of its `changed_records` list, zero when the key is absent. -/
def reportedChangedCount (rep : ValueChanges) : Nat :=
  (rep.changed_records.getD []).length

/-- The subset-validation precondition of `get_records_in_both_tables`:
no requested column is missing from the shared columns. -/
def subsetOk (old_df new_df : Table) : Option (List String) → Prop
  | none => True
  | some sub => subsetMissing sub (sharedColumns old_df new_df) = []

instance (old_df new_df : Table) (sub : Option (List String)) :
    Decidable (subsetOk old_df new_df sub) := by
  cases sub <;> simp only [subsetOk] <;> infer_instance

/-- The primary-key cell of a projected view row: the cell at the
position of the primary key in the view's column list (the position
`sharedView` sorts on). -/
def viewKey (cols : List String) (pk : String) (r : List Value) : Value :=
  r.getD ((findIdxO pk cols).getD cols.length) .null

/-- The column count the amended shared-extractor claim predicts: the
column-name intersection size, or the validated subset's size with the
primary key counted once when it had to be appended. -/
def expectedColCount (old_df new_df : Table) (pk : String) :
    Option (List String) → Nat
  | none => ((colNames old_df).toFinset ∩ (colNames new_df).toFinset).card
  | some s => if pk ∈ s then s.length else s.length + 1

/-- A two-row table used as a concrete witness input. -/
def tEq : Table :=
  { header := [("A", "int64"), ("B", "object")],
    rows := [[.int 1, .str "x"], [.int 2, .str "y"]] }

/-- Witness input: two columns `A`, `B`. -/
def tColsOld : Table :=
  { header := [("A", "int64"), ("B", "int64")], rows := [[.int 1, .int 2]] }

/-- Witness input: two columns `A`, `C` (so `B` is old-only and `C` is
new-only). -/
def tColsNew : Table :=
  { header := [("A", "int64"), ("C", "int64")], rows := [[.int 1, .int 2]] }

/-- Witness input for the value differ, old side. -/
def tValOld : Table :=
  { header := [("A", "int64"), ("B", "int64")],
    rows := [[.int 1, .int 10], [.int 2, .int 20]] }

/-- Witness input for the value differ, new side: the row with key 2
changed. -/
def tValNew : Table :=
  { header := [("A", "int64"), ("B", "int64")],
    rows := [[.int 1, .int 10], [.int 2, .int 99]] }

/-- Witness input with primary key 1 only. -/
def tDisjOld : Table :=
  { header := [("A", "int64"), ("B", "int64")], rows := [[.int 1, .int 5]] }

/-- Witness input with primary key 2 only: no shared keys with
`tDisjOld`. -/
def tDisjNew : Table :=
  { header := [("A", "int64"), ("B", "int64")], rows := [[.int 2, .int 5]] }

/-- A 101-column table: primary key `a` plus columns `c00` .. `c99`,
one row. -/
def bigT : Table :=
  { header := ("a", "int64") ::
      ((List.range 100).map (fun i => (s!"c{i / 10 % 10}{i % 10}", "int64"))),
    rows := [(List.range 101).map (fun i => Value.int (i : Int))] }

theorem storeAgrees_rfl (s : Store) : storeAgrees s s :=
  ⟨le_rfl, fun _ _ => rfl⟩

theorem storeAgrees_trans {s t u : Store} (h1 : storeAgrees s t)
    (h2 : storeAgrees t u) : storeAgrees s u :=
  ⟨le_trans h1.1 h2.1, fun k hk => (h2.2 k (lt_of_lt_of_le hk h1.1)).trans (h1.2 k hk)⟩

theorem storeAgrees_append (s : Store) (l : List Table) : storeAgrees s (s ++ l) := by
  constructor
  · simp
  · intro k hk
    rw [List.getElem?_append, if_pos hk]

theorem storeAgrees_set {s t : Store} (h : storeAgrees s t) {k : Nat}
    (hk : s.length ≤ k) (x : Table) : storeAgrees s (t.set k x) := by
  constructor
  · simpa using h.1
  · intro m hm
    have hne : k ≠ m := by
      intro he
      rw [he] at hk
      exact absurd hk (not_le.mpr hm)
    rw [List.getElem?_set_ne hne]
    exact h.2 m hm

theorem storeAgrees_append2 (s : Store) (a b : Table) :
    storeAgrees s (s ++ [a] ++ [b]) :=
  storeAgrees_trans (storeAgrees_append s [a]) (storeAgrees_append (s ++ [a]) [b])

theorem storeAgrees_write2 {s t : Store} (h : storeAgrees s t) {i1 j1 : Nat}
    (hi : s.length ≤ i1) (hj : s.length ≤ j1) (x y : Table) :
    storeAgrees s (writeT (writeT t i1 x) j1 y) :=
  storeAgrees_set (storeAgrees_set h hi x) hj y

theorem get_df_summary_prog_agrees (s : Store) (i : Nat) (pk : String)
    (sub : Option (List String)) (mc : Nat) :
    storeAgrees s (get_df_summary_prog s i pk sub mc).1 :=
  storeAgrees_append s _

theorem check_column_names_prog_agrees (s : Store) (i j : Nat) :
    storeAgrees s (check_column_names_prog s i j).1 :=
  storeAgrees_append2 s _ _

theorem check_record_count_prog_agrees (s : Store) (i j : Nat) (pk : String) :
    storeAgrees s (check_record_count_prog s i j pk).1 :=
  storeAgrees_append2 s _ _

theorem check_datatypes_prog_agrees (s : Store) (i j : Nat) (pk : String)
    (sub : Option (List String)) :
    storeAgrees s (check_datatypes_prog s i j pk sub).1 :=
  storeAgrees_append2 s _ _

theorem get_records_in_both_tables_prog_agrees (s : Store) (i j : Nat) (pk : String)
    (sub : Option (List String)) :
    storeAgrees s (get_records_in_both_tables_prog s i j pk sub).1 :=
  storeAgrees_append2 s _ _

theorem check_chg_in_values_prog_agrees (s : Store) (i j : Nat) (pk : String)
    (sub : Option (List String)) :
    storeAgrees s (check_chg_in_values_prog s i j pk sub).1 := by
  simp only [check_chg_in_values_prog]
  refine storeAgrees_trans ?_ (get_records_in_both_tables_prog_agrees _ _ _ _ _)
  exact storeAgrees_append2 s _ _

theorem get_record_changes_comparison_df_prog_agrees (s : Store) (i j : Nat)
    (pk : String) (sub : Option (List String)) :
    storeAgrees s (get_record_changes_comparison_df_prog s i j pk sub).1 := by
  simp only [get_record_changes_comparison_df_prog]
  refine storeAgrees_write2 ?_ ?_ ?_ _ _
  · refine storeAgrees_trans ?_ (check_chg_in_values_prog_agrees _ _ _ _ _)
    exact storeAgrees_append2 s _ _
  · exact le_rfl
  · simp

theorem create_consolidated_report_prog_agrees (s : Store) (i j : Nat)
    (pk : String) (sub : Option (List String)) :
    storeAgrees s (create_consolidated_report_prog s i j pk sub).1 := by
  simp only [create_consolidated_report_prog]
  refine storeAgrees_trans ?_ (get_record_changes_comparison_df_prog_agrees _ _ _ _ _)
  refine storeAgrees_trans ?_ (check_chg_in_values_prog_agrees _ _ _ _ _)
  refine storeAgrees_trans ?_ (check_datatypes_prog_agrees _ _ _ _ _)
  refine storeAgrees_trans ?_ (check_record_count_prog_agrees _ _ _ _)
  refine storeAgrees_trans ?_ (check_column_names_prog_agrees _ _ _)
  refine storeAgrees_trans ?_ (get_df_summary_prog_agrees _ _ _ _ _)
  refine storeAgrees_trans ?_ (get_df_summary_prog_agrees _ _ _ _ _)
  exact storeAgrees_append2 s _ _

theorem mem_uniqueCols {a b : List String} {x : String} :
    x ∈ uniqueCols a b ↔ x ∈ a ∧ x ∉ b := by
  simp [uniqueCols, List.mem_dedup]

theorem get_records_in_both_tables_eq (old_df new_df : Table) (pk : String)
    (sub : Option (List String)) (hsub : subsetOk old_df new_df sub) :
    get_records_in_both_tables old_df new_df pk sub =
      .ok (sharedView old_df pk (sharedKeys old_df new_df pk)
             (effectiveCols old_df new_df pk sub),
           sharedView new_df pk (sharedKeys old_df new_df pk)
             (effectiveCols old_df new_df pk sub)) := by
  cases sub with
  | none => rfl
  | some s =>
      have hs : subsetMissing s (sharedColumns old_df new_df) = [] := hsub
      simp [get_records_in_both_tables, hs]

theorem sharedView_rows_of_empty (t : Table) (pk : String) (cols : List String) :
    (sharedView t pk (∅ : Finset Value) cols).rows = [] := by
  unfold sharedView
  simp

/-- C4: whenever the two tables' column-name sets differ the section
reports `is_equal = False`; and when both sides have exclusive columns,
only the old-only branch is populated: `values` holds `removed_columns`
(exactly the columns unique to the old table) and no `added_columns`
key. -/
theorem c4_column_differ_first_checked_wins (old_df new_df : Table)
    (hne : (colNames old_df).toFinset ≠ (colNames new_df).toFinset) :
    (check_column_names old_df new_df).is_equal = false ∧
    (((colNames old_df).toFinset \ (colNames new_df).toFinset).Nonempty →
     ((colNames new_df).toFinset \ (colNames old_df).toFinset).Nonempty →
     (check_column_names old_df new_df).removed_columns
        = some (uniqueCols (colNames old_df) (colNames new_df)) ∧
     (uniqueCols (colNames old_df) (colNames new_df)).toFinset
        = (colNames old_df).toFinset \ (colNames new_df).toFinset ∧
     (check_column_names old_df new_df).added_columns = none) := by
  have hmem : ∀ x, x ∈ uniqueCols (colNames old_df) (colNames new_df) ↔
      x ∈ (colNames old_df).toFinset \ (colNames new_df).toFinset := by
    intro x
    simp [mem_uniqueCols, Finset.mem_sdiff, List.mem_toFinset]
  unfold check_column_names
  rw [if_neg hne]
  by_cases hO : 0 < (uniqueCols (colNames old_df) (colNames new_df)).length
  · rw [if_pos hO]
    refine ⟨rfl, fun _ _ => ⟨rfl, ?_, rfl⟩⟩
    ext x
    rw [List.mem_toFinset]
    exact hmem x
  · rw [if_neg hO]
    constructor
    · by_cases hN : 0 < (uniqueCols (colNames new_df) (colNames old_df)).length
      · rw [if_pos hN]
      · rw [if_neg hN]
    · intro h1 _
      exfalso
      obtain ⟨x, hx⟩ := h1
      have : x ∈ uniqueCols (colNames old_df) (colNames new_df) := (hmem x).mpr hx
      exact hO (List.length_pos.mpr (fun he => by simp [he] at this))

/-- C5: the code violates the claim.  With an existing file at
"report.html" and the overwrite flag off, the call does return `False`,
but `with open(export_file_name, 'w')` has already truncated the file
before the existence check runs, so the file the caller wanted protected
is left empty instead of unchanged. -/
theorem c5_export_refusal_truncates_file :
    (export_html_report (fsWrite fsEmpty "report.html" "old content") "rendered"
        "report.html" false).2 = false ∧
    (export_html_report (fsWrite fsEmpty "report.html" "old content") "rendered"
        "report.html" false).1 "report.html" = some "" ∧
    fsWrite fsEmpty "report.html" "old content" "report.html" = some "old content" :=
  ⟨rfl, rfl, rfl⟩

/-- C9: the refusal half of the claim holds (existing file, overwrite
off: returns `False`, file untouched), but the success half does not:
the source has no `return True` and falls off the end, returning Python
`None` rather than the boolean `True` its own docstring promises. -/
theorem c9_save_pickle_success_returns_none :
    (save_pickle fsEmpty "data" "report" false).2 = none ∧
    (save_pickle fsEmpty "data" "report" false).2 ≠ some true ∧
    (save_pickle fsEmpty "data" "report" false).1 "report.pickle" = some "data" ∧
    (save_pickle (fsWrite fsEmpty "r.pickle" "x") "data" "r.pickle" false).2
        = some false ∧
    (save_pickle (fsWrite fsEmpty "r.pickle" "x") "data" "r.pickle" false).1
        "r.pickle" = some "x" := by
  refine ⟨rfl, by decide, rfl, rfl, rfl⟩

/-- C4 witness: tables with columns A,B versus A,C, where both sides
have an exclusive column. -/
theorem c4_witness :
    (check_column_names tColsOld tColsNew).is_equal = false ∧
    (check_column_names tColsOld tColsNew).removed_columns = some ["B"] ∧
    (check_column_names tColsOld tColsNew).added_columns = none := by
  have h := c4_column_differ_first_checked_wins tColsOld tColsNew (by decide)
  have h2 := h.2 (by decide) (by decide)
  exact ⟨h.1, by rw [h2.1]; rfl, h2.2.2⟩

theorem check_chg_in_values_eq {old_df new_df : Table} {pk : String}
    {sub : Option (List String)} {so sn : Table}
    (hext : get_records_in_both_tables old_df new_df pk sub = .ok (so, sn)) :
    check_chg_in_values old_df new_df pk sub = .ok (chgReport so sn pk) := by
  simp [check_chg_in_values, hext]

/-- C10: with an empty primary-key intersection the value differ reports
equality without failing, and the divisions by the shared-row count are
only reached when the section is unequal, in which case the shared-row
count is positive. -/
theorem c10_empty_intersection_safe (old_df new_df : Table) (pk : String)
    (sub : Option (List String)) (hsub : subsetOk old_df new_df sub) :
    (sharedKeys old_df new_df pk = ∅ →
      ∃ rep, check_chg_in_values old_df new_df pk sub = .ok rep ∧
        rep.is_equal = true) ∧
    (∀ so sn rep, get_records_in_both_tables old_df new_df pk sub = .ok (so, sn) →
      check_chg_in_values old_df new_df pk sub = .ok rep →
      rep.is_equal = false → 0 < sn.rows.length) := by
  constructor
  · intro hK
    have hext := get_records_in_both_tables_eq old_df new_df pk sub hsub
    have h1 : (sharedView old_df pk (sharedKeys old_df new_df pk)
        (effectiveCols old_df new_df pk sub)).rows = [] := by
      rw [hK]; exact sharedView_rows_of_empty _ _ _
    have h2 : (sharedView new_df pk (sharedKeys old_df new_df pk)
        (effectiveCols old_df new_df pk sub)).rows = [] := by
      rw [hK]; exact sharedView_rows_of_empty _ _ _
    refine ⟨_, check_chg_in_values_eq hext, ?_⟩
    simp [chgReport, recordsWithChanges, pairedRows, h1, h2]
  · intro so sn rep hext hchk hfalse
    rw [check_chg_in_values_eq hext] at hchk
    have hrep : rep = chgReport so sn pk := by
      cases hchk; rfl
    subst hrep
    unfold chgReport at hfalse
    by_cases hlen : (recordsWithChanges so sn pk).length = 0
    · rw [if_pos hlen] at hfalse
      exact absurd hfalse (by decide)
    · have hpos : 0 < ((pairedRows so sn).filter
          (fun p => decide (0 < rowDiff p.1 p.2))).length :=
        Nat.pos_of_ne_zero (fun h => hlen (by
          unfold recordsWithChanges
          rw [List.length_map, h]))
      obtain ⟨q, hq⟩ := List.exists_mem_of_length_pos hpos
      have hpz : q ∈ pairedRows so sn := List.mem_of_mem_filter hq
      have := (List.of_mem_zip hpz).2
      exact List.length_pos.mpr (fun he => by simp [he] at this)

/-- C10 witness: tables with disjoint keys 1 and 2. -/
theorem c10_witness :
    ∃ rep, check_chg_in_values tDisjOld tDisjNew "A" none = .ok rep ∧
      rep.is_equal = true :=
  (c10_empty_intersection_safe tDisjOld tDisjNew "A" none trivial).1 (by decide)

theorem toFinset_eq_of_uniqueCols_empty {a b : List String}
    (hab : uniqueCols a b = []) (hba : uniqueCols b a = []) :
    a.toFinset = b.toFinset := by
  ext x
  simp only [List.mem_toFinset]
  constructor <;> intro hx
  · by_contra hn
    have : x ∈ uniqueCols a b := mem_uniqueCols.mpr ⟨hx, hn⟩
    simp [hab] at this
  · by_contra hn
    have : x ∈ uniqueCols b a := mem_uniqueCols.mpr ⟨hx, hn⟩
    simp [hba] at this

theorem check_column_names_shape_cases (old_df new_df : Table) :
    ((check_column_names old_df new_df).is_equal = true ∧
     (check_column_names old_df new_df).summary = [] ∧
     (check_column_names old_df new_df).removed_columns = none ∧
     (check_column_names old_df new_df).added_columns = none) ∨
    ((check_column_names old_df new_df).is_equal = false ∧
     (check_column_names old_df new_df).summary ≠ [] ∧
     ((check_column_names old_df new_df).removed_columns ≠ none ∨
      (check_column_names old_df new_df).added_columns ≠ none)) := by
  unfold check_column_names
  dsimp only
  split
  · left; simp
  · rename_i hne
    split
    · right
      exact ⟨rfl, by simp, Or.inl (by simp)⟩
    · rename_i h1
      split
      · right
        exact ⟨rfl, by simp, Or.inr (by simp)⟩
      · rename_i h2
        exact absurd (toFinset_eq_of_uniqueCols_empty
          (List.length_eq_zero.mp (Nat.eq_zero_of_not_pos h1))
          (List.length_eq_zero.mp (Nat.eq_zero_of_not_pos h2))) hne

theorem check_record_count_shape_cases (old_df new_df : Table) (pk : String) :
    ((check_record_count old_df new_df pk).is_equal = true ∧
     (check_record_count old_df new_df pk).summary = [] ∧
     (check_record_count old_df new_df pk).removed_records = none ∧
     (check_record_count old_df new_df pk).added_records = none) ∨
    ((check_record_count old_df new_df pk).is_equal = false ∧
     (check_record_count old_df new_df pk).summary ≠ [] ∧
     ((check_record_count old_df new_df pk).removed_records ≠ none ∨
      (check_record_count old_df new_df pk).added_records ≠ none)) := by
  unfold check_record_count
  dsimp only
  split
  · left; simp
  · rename_i hg
    right
    refine ⟨rfl, ?_, ?_⟩
    · by_cases hr : 0 < (uniqueIds old_df new_df pk).length <;>
        by_cases ha : 0 < (uniqueIds new_df old_df pk).length <;>
        simp [hr, ha]
    · by_cases hr : 0 < (uniqueIds old_df new_df pk).length
      · exact Or.inl (by simp [hr])
      · have ha : 0 < (uniqueIds new_df old_df pk).length := by
          rcases Nat.eq_zero_or_pos (uniqueIds new_df old_df pk).length with h0 | h0
          · exact absurd ⟨Nat.eq_zero_of_not_pos hr, h0⟩ hg
          · exact h0
        exact Or.inr (by simp [ha])

theorem check_datatypes_shape_cases (old_df new_df : Table) (pk : String)
    (sub : Option (List String)) :
    ((check_datatypes old_df new_df pk sub).is_equal = true ∧
     (check_datatypes old_df new_df pk sub).summary = [] ∧
     (check_datatypes old_df new_df pk sub).summary_table = none ∧
     (check_datatypes old_df new_df pk sub).changed_columns = none) ∨
    ((check_datatypes old_df new_df pk sub).is_equal = false ∧
     (check_datatypes old_df new_df pk sub).summary ≠ [] ∧
     (check_datatypes old_df new_df pk sub).summary_table ≠ none ∧
     (check_datatypes old_df new_df pk sub).changed_columns ≠ none) := by
  unfold check_datatypes
  cases sub <;> dsimp only <;> split
  · left; simp
  · right; exact ⟨rfl, by simp, by simp, by simp⟩
  · left; simp
  · right; exact ⟨rfl, by simp, by simp, by simp⟩

theorem chgReport_shape_cases (so sn : Table) (pk : String) :
    ((chgReport so sn pk).is_equal = true ∧
     (chgReport so sn pk).summary = [] ∧
     (chgReport so sn pk).summary_table = none ∧
     (chgReport so sn pk).changed_records = none ∧
     (chgReport so sn pk).changed_columns = none) ∨
    ((chgReport so sn pk).is_equal = false ∧
     (chgReport so sn pk).summary ≠ [] ∧
     (chgReport so sn pk).changed_records ≠ none) := by
  unfold chgReport
  dsimp only
  split
  · left; simp
  · right; exact ⟨rfl, by simp, by simp⟩

/-- C7: every differ's section honors the shape invariant —
`is_equal = True` leaves `summary`, `summary_table` and the `values`
lists unpopulated, and `is_equal = False` comes with a nonempty
`summary` and a populated `values` mapping. -/
theorem c7_section_shape (old_df new_df : Table) (pk : String)
    (sub : Option (List String)) :
    ((check_column_names old_df new_df).is_equal = true →
        (check_column_names old_df new_df).summary = [] ∧
        (check_column_names old_df new_df).removed_columns = none ∧
        (check_column_names old_df new_df).added_columns = none) ∧
    ((check_column_names old_df new_df).is_equal = false →
        (check_column_names old_df new_df).summary ≠ [] ∧
        ((check_column_names old_df new_df).removed_columns ≠ none ∨
         (check_column_names old_df new_df).added_columns ≠ none)) ∧
    ((check_record_count old_df new_df pk).is_equal = true →
        (check_record_count old_df new_df pk).summary = [] ∧
        (check_record_count old_df new_df pk).removed_records = none ∧
        (check_record_count old_df new_df pk).added_records = none) ∧
    ((check_record_count old_df new_df pk).is_equal = false →
        (check_record_count old_df new_df pk).summary ≠ [] ∧
        ((check_record_count old_df new_df pk).removed_records ≠ none ∨
         (check_record_count old_df new_df pk).added_records ≠ none)) ∧
    ((check_datatypes old_df new_df pk sub).is_equal = true →
        (check_datatypes old_df new_df pk sub).summary = [] ∧
        (check_datatypes old_df new_df pk sub).summary_table = none ∧
        (check_datatypes old_df new_df pk sub).changed_columns = none) ∧
    ((check_datatypes old_df new_df pk sub).is_equal = false →
        (check_datatypes old_df new_df pk sub).summary ≠ [] ∧
        (check_datatypes old_df new_df pk sub).summary_table ≠ none ∧
        (check_datatypes old_df new_df pk sub).changed_columns ≠ none) ∧
    (∀ rep, check_chg_in_values old_df new_df pk sub = .ok rep →
        (rep.is_equal = true →
            rep.summary = [] ∧ rep.summary_table = none ∧
            rep.changed_records = none ∧ rep.changed_columns = none) ∧
        (rep.is_equal = false →
            rep.summary ≠ [] ∧ rep.changed_records ≠ none)) := by
  refine ⟨?_, ?_, ?_, ?_, ?_, ?_, ?_⟩
  · intro h
    rcases check_column_names_shape_cases old_df new_df with hc | hc
    · exact hc.2
    · rw [h] at hc; exact absurd hc.1 (by decide)
  · intro h
    rcases check_column_names_shape_cases old_df new_df with hc | hc
    · rw [h] at hc; exact absurd hc.1 (by decide)
    · exact hc.2
  · intro h
    rcases check_record_count_shape_cases old_df new_df pk with hc | hc
    · exact hc.2
    · rw [h] at hc; exact absurd hc.1 (by decide)
  · intro h
    rcases check_record_count_shape_cases old_df new_df pk with hc | hc
    · rw [h] at hc; exact absurd hc.1 (by decide)
    · exact hc.2
  · intro h
    rcases check_datatypes_shape_cases old_df new_df pk sub with hc | hc
    · exact hc.2
    · rw [h] at hc; exact absurd hc.1 (by decide)
  · intro h
    rcases check_datatypes_shape_cases old_df new_df pk sub with hc | hc
    · rw [h] at hc; exact absurd hc.1 (by decide)
    · exact hc.2
  · intro rep hchk
    cases hext : get_records_in_both_tables old_df new_df pk sub with
    | error e => simp [check_chg_in_values, hext] at hchk
    | ok p =>
        obtain ⟨so, sn⟩ := p
        rw [check_chg_in_values_eq hext] at hchk
        have hrep : rep = chgReport so sn pk := by cases hchk; rfl
        subst hrep
        constructor
        · intro h
          rcases chgReport_shape_cases so sn pk with hc | hc
          · exact hc.2
          · rw [h] at hc; exact absurd hc.1 (by decide)
        · intro h
          rcases chgReport_shape_cases so sn pk with hc | hc
          · rw [h] at hc; exact absurd hc.1 (by decide)
          · exact hc.2

/-- C7 witness: instantiated at tables whose column sets differ, the
unequal column section carries a nonempty summary and populated
values. -/
theorem c7_witness :
    (check_column_names tColsOld tColsNew).summary ≠ [] ∧
    ((check_column_names tColsOld tColsNew).removed_columns ≠ none ∨
     (check_column_names tColsOld tColsNew).added_columns ≠ none) :=
  (c7_section_shape tColsOld tColsNew "A" none).2.1 (by decide)

theorem mem_zip_self {α : Type} {l : List α} {p : α × α} (hp : p ∈ l.zip l) :
    p.1 = p.2 := by
  induction l with
  | nil => cases hp
  | cons a t ih =>
      rw [List.zip_cons_cons] at hp
      rcases List.mem_cons.mp hp with h | h
      · rw [h]
      · exact ih h

theorem rowDiff_self (r : List Value) : rowDiff r r = 0 := by
  unfold rowDiff
  rw [List.countP_eq_zero]
  intro q hq
  have := mem_zip_self hq
  simp [this]

theorem recordsWithChanges_self (v : Table) (pk : String) :
    recordsWithChanges v v pk = [] := by
  unfold recordsWithChanges pairedRows
  have hfil : (v.rows.zip v.rows).filter (fun p => decide (0 < rowDiff p.1 p.2)) = [] := by
    rw [List.filter_eq_nil]
    intro p hp
    have h1 := mem_zip_self hp
    rw [h1, rowDiff_self]
    simp
  rw [hfil]
  rfl

theorem chgReport_self (v : Table) (pk : String) :
    chgReport v v pk = { is_equal := true, summary := [], summary_table := none,
                         changed_records := none, changed_columns := none } := by
  unfold chgReport
  dsimp only
  rw [recordsWithChanges_self]
  rfl

theorem check_column_names_self (t : Table) :
    check_column_names t t = { is_equal := true, summary := [],
                               removed_columns := none, added_columns := none } := by
  unfold check_column_names
  rw [if_pos rfl]

theorem uniqueIds_self (t : Table) (pk : String) : uniqueIds t t pk = [] := by
  unfold uniqueIds
  rw [List.filter_eq_nil]
  intro v hv
  simp [List.mem_dedup.mp hv]

theorem check_record_count_self (t : Table) (pk : String) :
    check_record_count t t pk = { is_equal := true, summary := [],
                                  removed_records := none, added_records := none } := by
  unfold check_record_count
  dsimp only
  rw [if_pos ⟨by rw [uniqueIds_self]; rfl, by rw [uniqueIds_self]; rfl⟩]

theorem check_datatypes_self (t : Table) (pk : String) (sub : Option (List String)) :
    check_datatypes t t pk sub = { is_equal := true, summary := [],
                                   summary_table := none, changed_columns := none } := by
  unfold check_datatypes
  cases sub <;> dsimp only <;> split <;> rename_i h
  · rfl
  · exfalso
    apply h
    rw [List.length_eq_zero, List.filter_eq_nil]
    intro a ha
    obtain ⟨c, _, rfl⟩ := List.mem_map.mp ha
    simp
  · rfl
  · exfalso
    apply h
    rw [List.length_eq_zero, List.filter_eq_nil]
    intro a ha
    obtain ⟨c, _, rfl⟩ := List.mem_map.mp ha
    simp

theorem get_df_summary_ok (t : Table) (pk : String) (sub : Option (List String))
    (mc : Nat) (hrow : 0 < nrows t) (hpk : pk ∈ colNames t) :
    ∃ d, get_df_summary t pk sub mc = .ok d := by
  have h1 : ¬(nrows t = 0 ∨ ncols t = 0) := by
    rintro (h | h)
    · exact absurd h (Nat.pos_iff_ne_zero.mp hrow)
    · have : colNames t = [] := by
        unfold colNames
        rw [List.map_eq_nil]
        exact List.length_eq_zero.mp h
      rw [this] at hpk
      cases hpk
  unfold get_df_summary
  rw [if_neg h1, if_neg (not_not.mpr hpk)]
  exact ⟨_, rfl⟩

theorem get_record_changes_comparison_df_none {old_df new_df : Table} {pk : String}
    {sub : Option (List String)} {so sn : Table}
    (hext : get_records_in_both_tables old_df new_df pk sub = .ok (so, sn))
    (heq : (chgReport so sn pk).is_equal = true) :
    get_record_changes_comparison_df old_df new_df pk sub = .ok none := by
  simp [get_record_changes_comparison_df, check_chg_in_values_eq hext,
    comparisonFromReport, heq]

/-- C1: comparing a table against an exact copy of itself (the table is
nonempty, carries its primary-key column, and any requested subset is
valid — the preconditions under which the source completes) yields a
report whose four sections all have `is_equal = True`, whose
`meta.is_all_equal` is `True`, and a `None` comparison table. -/
theorem c1_self_comparison_all_equal (t : Table) (pk : String)
    (sub : Option (List String)) (hrow : 0 < nrows t) (hpk : pk ∈ colNames t)
    (hsub : subsetOk t t sub) :
    ∃ rep, create_consolidated_report t t pk sub = .ok (rep, none) ∧
      rep.column_name_changes.is_equal = true ∧
      rep.record_count_changes.is_equal = true ∧
      rep.datatype_changes.is_equal = true ∧
      rep.record_value_changes.is_equal = true ∧
      rep.is_all_equal = true := by
  obtain ⟨d, hd⟩ := get_df_summary_ok t pk sub 100 hrow hpk
  have hext := get_records_in_both_tables_eq t t pk sub hsub
  have hchg : check_chg_in_values t t pk sub =
      .ok (chgReport (sharedView t pk (sharedKeys t t pk) (effectiveCols t t pk sub))
             (sharedView t pk (sharedKeys t t pk) (effectiveCols t t pk sub)) pk) :=
    check_chg_in_values_eq hext
  have hself := chgReport_self
    (sharedView t pk (sharedKeys t t pk) (effectiveCols t t pk sub)) pk
  have hcmp : get_record_changes_comparison_df t t pk sub = .ok none :=
    get_record_changes_comparison_df_none hext (by rw [hself])
  have hcreate : create_consolidated_report t t pk sub =
      .ok ({ title_text := "DataDelta: Dataset Comparison Report",
             column_subset := sub,
             is_all_equal := decide (t = t),
             old_df_table_summary := d,
             new_df_table_summary := d,
             column_name_changes := check_column_names t t,
             record_count_changes := check_record_count t t pk,
             datatype_changes := check_datatypes t t pk sub,
             record_value_changes :=
               chgReport (sharedView t pk (sharedKeys t t pk) (effectiveCols t t pk sub))
                 (sharedView t pk (sharedKeys t t pk) (effectiveCols t t pk sub)) pk },
           none) := by
    simp only [create_consolidated_report, hd, hchg, hcmp]
    rfl
  refine ⟨_, hcreate, ?_, ?_, ?_, ?_, ?_⟩
  · simp [check_column_names_self]
  · simp [check_record_count_self]
  · simp [check_datatypes_self]
  · simp [hself]
  · simp

/-- C1 witness: a concrete two-row table compared against itself. -/
theorem c1_witness :
    ∃ rep, create_consolidated_report tEq tEq "A" none = .ok (rep, none) ∧
      rep.column_name_changes.is_equal = true ∧
      rep.record_count_changes.is_equal = true ∧
      rep.datatype_changes.is_equal = true ∧
      rep.record_value_changes.is_equal = true ∧
      rep.is_all_equal = true :=
  c1_self_comparison_all_equal tEq "A" none (by decide) (by decide) trivial

theorem get_record_changes_comparison_df_eq {old_df new_df : Table} {pk : String}
    {sub : Option (List String)} {so sn : Table}
    (hext : get_records_in_both_tables old_df new_df pk sub = .ok (so, sn)) :
    get_record_changes_comparison_df old_df new_df pk sub =
      .ok (comparisonFromReport old_df new_df pk sub (chgReport so sn pk)) := by
  simp [get_record_changes_comparison_df, check_chg_in_values_eq hext]

theorem length_colNames (t : Table) : (colNames t).length = ncols t :=
  List.length_map _ _

theorem get_df_summary_none_ok (t : Table) (pk : String) (mc : Nat)
    (hrow : 0 < nrows t) (hpk : pk ∈ colNames t) :
    ∃ d, get_df_summary t pk none mc = .ok d ∧
      d.summary_table.length = min (ncols t) mc := by
  have h1 : ¬(nrows t = 0 ∨ ncols t = 0) := by
    rintro (h | h)
    · exact absurd h (Nat.pos_iff_ne_zero.mp hrow)
    · have : colNames t = [] := by
        unfold colNames
        rw [List.map_eq_nil]
        exact List.length_eq_zero.mp h
      rw [this] at hpk
      cases hpk
  unfold get_df_summary
  rw [if_neg h1, if_neg (not_not.mpr hpk)]
  refine ⟨_, rfl, ?_⟩
  dsimp only
  have hL : (List.insertionSort sumLe ((colNames t).map (fun c =>
      { column_names := c, n_valid_records := nValid t c,
        prop_valid_records :=
          around1 ((fracOfNats (nValid t c) (nrows t)).mulNat 100),
        datatype := dtypeOf t c : SummaryRow }))).length = ncols t := by
    rw [List.length_insertionSort, List.length_map, length_colNames]
  split
  · rename_i h
    rw [List.length_take, hL]
    rw [hL] at h
    omega
  · rename_i h
    rw [hL]
    rw [hL] at h
    omega

set_option maxRecDepth 100000 in
/-- C6, counterexample to the claim as stated: `create_consolidated_report`
passes 100 (not an uncapped count) as the summary row cap, so on a
101-column table the summary section holds 100 rows, not one per
column. -/
theorem c6_counterexample :
    (create_consolidated_report bigT bigT "a" none).toOption.map
        (fun p => p.1.old_df_table_summary.summary_table.length) = some 100 ∧
    ncols bigT = 101 :=
  ⟨rfl, rfl⟩

/-- C6, amended: `create_consolidated_report` invokes the table
summarizer for both tables with a row cap of 100 (not uncapped), so
each summary section holds one row per column only up to 100 columns —
`min(ncols, 100)` rows — and is truncated beyond that. -/
theorem c6_summary_capped_at_100 (old_df new_df : Table) (pk : String)
    (hro : 0 < nrows old_df) (hpo : pk ∈ colNames old_df)
    (hrn : 0 < nrows new_df) (hpn : pk ∈ colNames new_df) :
    ∃ rep cmp, create_consolidated_report old_df new_df pk none = .ok (rep, cmp) ∧
      rep.old_df_table_summary.summary_table.length = min (ncols old_df) 100 ∧
      rep.new_df_table_summary.summary_table.length = min (ncols new_df) 100 := by
  obtain ⟨d1, hd1, hl1⟩ := get_df_summary_none_ok old_df pk 100 hro hpo
  obtain ⟨d2, hd2, hl2⟩ := get_df_summary_none_ok new_df pk 100 hrn hpn
  have hext := get_records_in_both_tables_eq old_df new_df pk none trivial
  have hchg := check_chg_in_values_eq hext
  have hcmp := get_record_changes_comparison_df_eq hext
  have hcreate : create_consolidated_report old_df new_df pk none =
      .ok ({ title_text := "DataDelta: Dataset Comparison Report",
             column_subset := none,
             is_all_equal := decide (old_df = new_df),
             old_df_table_summary := d1,
             new_df_table_summary := d2,
             column_name_changes := check_column_names old_df new_df,
             record_count_changes := check_record_count old_df new_df pk,
             datatype_changes := check_datatypes old_df new_df pk none,
             record_value_changes :=
               chgReport
                 (sharedView old_df pk (sharedKeys old_df new_df pk)
                   (effectiveCols old_df new_df pk none))
                 (sharedView new_df pk (sharedKeys old_df new_df pk)
                   (effectiveCols old_df new_df pk none)) pk },
           comparisonFromReport old_df new_df pk none
             (chgReport
               (sharedView old_df pk (sharedKeys old_df new_df pk)
                 (effectiveCols old_df new_df pk none))
               (sharedView new_df pk (sharedKeys old_df new_df pk)
                 (effectiveCols old_df new_df pk none)) pk)) := by
    simp only [create_consolidated_report, hd1, hd2, hchg, hcmp]
    rfl
  exact ⟨_, _, hcreate, hl1, hl2⟩

/-- C6 amended-claim witness: on a two-column table, the summary holds
one row per column. -/
theorem c6_witness :
    ∃ rep cmp, create_consolidated_report tEq tEq "A" none = .ok (rep, cmp) ∧
      rep.old_df_table_summary.summary_table.length = min (ncols tEq) 100 ∧
      rep.new_df_table_summary.summary_table.length = min (ncols tEq) 100 :=
  c6_summary_capped_at_100 tEq tEq "A" (by decide) (by decide) (by decide) (by decide)

/-- C8: no public diff operation mutates the caller's dataframes.  In
the object-store trace of each operation — where `.copy()` allocates a
fresh cell and the in-place column assignments of
`get_record_changes_comparison_df` write through the copies' references
— every store cell the caller could reference is unchanged after the
call. -/
theorem c8_no_caller_mutation (s : Store) (i j k : Nat) (pk : String)
    (sub : Option (List String)) (mc : Nat) (hk : k < s.length) :
    (get_df_summary_prog s i pk sub mc).1[k]? = s[k]? ∧
    (check_column_names_prog s i j).1[k]? = s[k]? ∧
    (check_record_count_prog s i j pk).1[k]? = s[k]? ∧
    (check_datatypes_prog s i j pk sub).1[k]? = s[k]? ∧
    (check_chg_in_values_prog s i j pk sub).1[k]? = s[k]? ∧
    (get_record_changes_comparison_df_prog s i j pk sub).1[k]? = s[k]? ∧
    (create_consolidated_report_prog s i j pk sub).1[k]? = s[k]? :=
  ⟨(get_df_summary_prog_agrees s i pk sub mc).2 k hk,
   (check_column_names_prog_agrees s i j).2 k hk,
   (check_record_count_prog_agrees s i j pk).2 k hk,
   (check_datatypes_prog_agrees s i j pk sub).2 k hk,
   (check_chg_in_values_prog_agrees s i j pk sub).2 k hk,
   (get_record_changes_comparison_df_prog_agrees s i j pk sub).2 k hk,
   (create_consolidated_report_prog_agrees s i j pk sub).2 k hk⟩

/-- C8 witness: after a full consolidated-report run over a two-cell
store, the first caller cell still holds its original table. -/
theorem c8_witness :
    (0 : Nat) < ([tEq, tValNew] : Store).length ∧
    (create_consolidated_report_prog [tEq, tValNew] 0 1 "A" none).1[0]? = some tEq :=
  ⟨by decide,
   ((c8_no_caller_mutation [tEq, tValNew] 0 1 0 "A" none 15 (by decide)).2.2.2.2.2.2).trans rfl⟩

theorem length_filter_mem_finset {α : Type} [DecidableEq α] (l : List α)
    (K : Finset α) (hl : l.Nodup) :
    (l.filter (fun v => decide (v ∈ K))).length = (l.toFinset ∩ K).card := by
  have h1 : (l.filter (fun v => decide (v ∈ K))).Nodup := hl.filter _
  rw [← List.toFinset_card_of_nodup h1, List.toFinset_filter]
  congr 1
  ext x
  simp

theorem length_filter_mem_list {α : Type} [DecidableEq α] (l m : List α)
    (hl : l.Nodup) :
    (l.filter (fun v => decide (v ∈ m))).length = (l.toFinset ∩ m.toFinset).card := by
  rw [← length_filter_mem_finset l m.toFinset hl]
  congr 1
  apply List.filter_congr
  intro x _
  simp

theorem sharedView_rows_length (t : Table) (pk : String) (K : Finset Value)
    (cols : List String) :
    (sharedView t pk K cols).rows.length =
      ((pkList t pk).filter (fun v => decide (v ∈ K))).length := by
  unfold sharedView
  dsimp only
  rw [List.length_map, List.length_insertionSort, List.length_map,
    ← List.countP_eq_length_filter, pkList, ← List.countP_eq_length_filter,
    List.countP_map]
  rfl

theorem sharedView_rows_card (old_df new_df t : Table) (pk : String)
    (cols : List String) (hnt : (pkList t pk).Nodup)
    (hsub : sharedKeys old_df new_df pk ⊆ (pkList t pk).toFinset) :
    (sharedView t pk (sharedKeys old_df new_df pk) cols).rows.length =
      (sharedKeys old_df new_df pk).card := by
  rw [sharedView_rows_length, length_filter_mem_finset _ _ hnt,
    Finset.inter_eq_right.mpr hsub]

theorem sharedKeys_card_le_min (old_df new_df : Table) (pk : String) :
    (sharedKeys old_df new_df pk).card ≤ min (nrows old_df) (nrows new_df) := by
  have h1 : (sharedKeys old_df new_df pk).card ≤ nrows old_df := by
    calc (sharedKeys old_df new_df pk).card
        ≤ (pkList old_df pk).toFinset.card :=
          Finset.card_le_card Finset.inter_subset_left
      _ ≤ (pkList old_df pk).length := List.toFinset_card_le _
      _ = nrows old_df := List.length_map _ _
  have h2 : (sharedKeys old_df new_df pk).card ≤ nrows new_df := by
    calc (sharedKeys old_df new_df pk).card
        ≤ (pkList new_df pk).toFinset.card :=
          Finset.card_le_card Finset.inter_subset_right
      _ ≤ (pkList new_df pk).length := List.toFinset_card_le _
      _ = nrows new_df := List.length_map _ _
  exact le_min h1 h2

/-- C3, counterexample to the claim as stated: with primary key "A" and
validated subset ["B"], the extractor appends the primary key to the
subset, so each returned table has 2 columns, not the subset's size 1. -/
theorem c3_counterexample :
    ∃ so sn, get_records_in_both_tables tColsOld tColsOld "A" (some ["B"]) =
        .ok (so, sn) ∧
      so.header.length = 2 ∧ (["B"] : List String).length = 1 := by
  exact ⟨_, _, rfl, rfl, rfl⟩

/-- C3, amended: under unique primary keys and distinct column names,
each extracted table's row count equals the primary-key intersection
size (hence is at most min of the row counts), and its column count is
the column-name intersection size — or, when a validated subset is
supplied, the subset's size plus one when the primary key had to be
appended to it. -/
theorem c3_shared_extractor_counts (old_df new_df : Table) (pk : String)
    (sub : Option (List String)) (so sn : Table)
    (hno : (pkList old_df pk).Nodup) (hnn : (pkList new_df pk).Nodup)
    (hco : (colNames old_df).Nodup)
    (hext : get_records_in_both_tables old_df new_df pk sub = .ok (so, sn)) :
    so.rows.length = (sharedKeys old_df new_df pk).card ∧
    sn.rows.length = (sharedKeys old_df new_df pk).card ∧
    (sharedKeys old_df new_df pk).card ≤ min (nrows old_df) (nrows new_df) ∧
    so.header.length = expectedColCount old_df new_df pk sub ∧
    sn.header.length = expectedColCount old_df new_df pk sub := by
  have hviews : so = sharedView old_df pk (sharedKeys old_df new_df pk)
        (effectiveCols old_df new_df pk sub) ∧
      sn = sharedView new_df pk (sharedKeys old_df new_df pk)
        (effectiveCols old_df new_df pk sub) := by
    revert hext
    unfold get_records_in_both_tables
    cases sub with
    | none =>
        intro hext
        cases hext
        exact ⟨rfl, rfl⟩
    | some s =>
        dsimp only
        split
        · intro hext
          cases hext
          exact ⟨rfl, rfl⟩
        · intro hext
          cases hext
  obtain ⟨hso, hsn⟩ := hviews
  have hcols : (effectiveCols old_df new_df pk sub).length =
      expectedColCount old_df new_df pk sub := by
    clear hext hso hsn
    cases sub with
    | none =>
        show (sharedColumns old_df new_df).length = _
        unfold sharedColumns expectedColCount
        rw [List.dedup_eq_self.mpr hco]
        exact length_filter_mem_list _ _ hco
    | some s =>
        show (if pk ∈ s then s else s ++ [pk]).length =
          (if pk ∈ s then s.length else s.length + 1)
        by_cases hmem : pk ∈ s
        · rw [if_pos hmem, if_pos hmem]
        · rw [if_neg hmem, if_neg hmem, List.length_append]
          rfl
  refine ⟨?_, ?_, sharedKeys_card_le_min old_df new_df pk, ?_, ?_⟩
  · rw [hso]
    exact sharedView_rows_card old_df new_df old_df pk _ hno Finset.inter_subset_left
  · rw [hsn]
    exact sharedView_rows_card old_df new_df new_df pk _ hnn Finset.inter_subset_right
  · rw [hso]
    show (List.map _ (effectiveCols old_df new_df pk sub)).length = _
    rw [List.length_map]
    exact hcols
  · rw [hsn]
    show (List.map _ (effectiveCols old_df new_df pk sub)).length = _
    rw [List.length_map]
    exact hcols

/-- C3 witness: the amended count equalities at concrete two-row
tables. -/
theorem c3_witness :
    ∃ so sn, get_records_in_both_tables tValOld tValNew "A" none = .ok (so, sn) ∧
      so.rows.length = (sharedKeys tValOld tValNew "A").card ∧
      (sharedKeys tValOld tValNew "A").card ≤ min (nrows tValOld) (nrows tValNew) := by
  refine ⟨_, _, rfl, ?_, ?_⟩
  · exact (c3_shared_extractor_counts tValOld tValNew "A" none _ _
      (by decide) (by decide) (by decide) rfl).1
  · exact (c3_shared_extractor_counts tValOld tValNew "A" none _ _
      (by decide) (by decide) (by decide) rfl).2.2.1

theorem findIdxO_mem {pk : String} :
    ∀ (cols : List String), pk ∈ cols →
      ∃ (i : Nat) (h : i < cols.length), findIdxO pk cols = some i ∧ cols[i] = pk := by
  intro cols
  induction cols with
  | nil => intro h; cases h
  | cons c cs ih =>
      intro h
      by_cases hc : c = pk
      · exact ⟨0, Nat.succ_pos _, by simp [findIdxO, hc], hc⟩
      · have hmem : pk ∈ cs := by
          rcases List.mem_cons.mp h with h1 | h1
          · exact absurd h1.symm hc
          · exact h1
        obtain ⟨i, hlt, hfi, hget⟩ := ih hmem
        refine ⟨i + 1, Nat.succ_lt_succ hlt, ?_, by simpa using hget⟩
        simp [findIdxO, hc, hfi]

theorem viewKey_projectRow (t : Table) (cols : List String) (pk : String)
    (r : List Value) (hmem : pk ∈ cols) :
    viewKey cols pk (projectRow t cols r) = cellByName t r pk := by
  obtain ⟨i, hlt, hfi, hget⟩ := findIdxO_mem cols hmem
  unfold viewKey projectRow
  rw [hfi]
  show (cols.map (cellByName t r)).getD i .null = cellByName t r pk
  rw [List.getD_eq_getElem _ _ (by simpa using hlt), List.getElem_map, hget]

theorem fillRow_getD (r : List Value) (i : Nat)
    (h : r.getD i .null ≠ .null) :
    (fillRow r).getD i .null = r.getD i .null := by
  by_cases hi : i < r.length
  · have hi2 : i < (fillRow r).length := by simpa [fillRow] using hi
    rw [List.getD_eq_getElem _ _ hi2, List.getD_eq_getElem _ _ hi]
    show (List.map _ r)[i] = r[i]
    rw [List.getElem_map]
    rw [List.getD_eq_getElem _ _ hi] at h
    cases hv : r[i] with
    | int a => simp [Value.isNull]
    | str a => simp [Value.isNull]
    | null => rw [hv] at h; exact absurd rfl h
  · have hle : r.length ≤ i := Nat.le_of_not_lt hi
    rw [List.getD_eq_default _ _ hle,
      List.getD_eq_default _ _ (by simpa [fillRow] using hle)]

theorem viewKey_fillRow (cols : List String) (pk : String) (r : List Value)
    (h : viewKey cols pk r ≠ .null) :
    viewKey cols pk (fillRow r) = viewKey cols pk r :=
  fillRow_getD r ((findIdxO pk cols).getD cols.length) h

theorem find?_map_nodup {f : List Value → Value} :
    ∀ (l : List (List Value)), (l.map f).Nodup → ∀ r0 ∈ l,
      l.find? (fun r => decide (f r = f r0)) = some r0 := by
  intro l
  induction l with
  | nil => intro _ r0 h; cases h
  | cons a as ih =>
      intro hnd r0 hr0
      have hnd2 : (f a :: as.map f).Nodup := by simpa using hnd
      by_cases ha : f a = f r0
      · have hr0a : r0 = a := by
          rcases List.mem_cons.mp hr0 with h1 | h1
          · exact h1
          · exfalso
            have h2 : f r0 ∈ as.map f := List.mem_map_of_mem f h1
            rw [← ha] at h2
            exact (List.nodup_cons.mp hnd2).1 h2
        subst hr0a
        exact List.find?_cons_of_pos _ (by simp)
      · have hr0as : r0 ∈ as := by
          rcases List.mem_cons.mp hr0 with h1 | h1
          · exact absurd (by rw [h1]) ha
          · exact h1
        rw [List.find?_cons_of_neg _ (by simpa using ha)]
        exact ih (List.nodup_cons.mp hnd2).2 r0 hr0as

theorem mem_sharedView_rows {t : Table} {pk : String} {K : Finset Value}
    {cols : List String} {r : List Value}
    (hr : r ∈ (sharedView t pk K cols).rows) :
    ∃ r0, r0 ∈ t.rows ∧ cellByName t r0 pk ∈ K ∧
      r = fillRow (projectRow t cols r0) := by
  unfold sharedView at hr
  dsimp only at hr
  obtain ⟨q, hq, rfl⟩ := List.mem_map.mp hr
  have hq2 := (List.mem_insertionSort _).mp hq
  obtain ⟨r0, hr0, rfl⟩ := List.mem_map.mp hq2
  have hf := List.mem_filter.mp hr0
  exact ⟨r0, hf.1, by simpa using hf.2, rfl⟩

theorem viewRowForKey_of_mem {t : Table} {pk : String} {K : Finset Value}
    {cols : List String} (hmem : pk ∈ cols) (hnd : (pkList t pk).Nodup)
    (hnull : Value.null ∉ pkList t pk) :
    ∀ r ∈ (sharedView t pk K cols).rows,
      viewRowForKey t cols pk (viewKey cols pk r) = r := by
  intro r hr
  obtain ⟨r0, hr0, hK, rfl⟩ := mem_sharedView_rows hr
  have hkey : viewKey cols pk (projectRow t cols r0) = cellByName t r0 pk :=
    viewKey_projectRow t cols pk r0 hmem
  have hmempk : cellByName t r0 pk ∈ pkList t pk := List.mem_map_of_mem _ hr0
  have hne : cellByName t r0 pk ≠ .null := fun he => hnull (he ▸ hmempk)
  have hkeyfill : viewKey cols pk (fillRow (projectRow t cols r0)) =
      cellByName t r0 pk := by
    rw [viewKey_fillRow _ _ _ (by rw [hkey]; exact hne), hkey]
  rw [hkeyfill]
  unfold viewRowForKey
  have hnd2 : (t.rows.map (fun r2 => cellByName t r2 pk)).Nodup := hnd
  rw [find?_map_nodup t.rows hnd2 r0 hr0]

theorem map_filter_comm {α β : Type} (f : α → β) (p : β → Bool) :
    ∀ l : List α, (l.filter (fun x => p (f x))).map f = (l.map f).filter p := by
  intro l
  induction l with
  | nil => rfl
  | cons a as ih =>
      by_cases hp : p (f a) = true
      · simp only [List.filter_cons, List.map_cons, hp, if_true]
        rw [ih]
      · simp [List.filter_cons, hp, ih]

theorem sharedView_keys_spec (t : Table) (pk : String) (K : Finset Value)
    (cols : List String) (hmem : pk ∈ cols) (hnull : Value.null ∉ pkList t pk) :
    List.Sorted vle ((sharedView t pk K cols).rows.map (viewKey cols pk)) ∧
    ((sharedView t pk K cols).rows.map (viewKey cols pk)).Perm
      ((pkList t pk).filter (fun v => decide (v ∈ K))) := by
  have hproj : ∀ q ∈ List.insertionSort
      (rowLe ((findIdxO pk cols).getD cols.length))
      ((t.rows.filter (fun r => decide (cellByName t r pk ∈ K))).map
        (projectRow t cols)),
      viewKey cols pk (fillRow q) = viewKey cols pk q := by
    intro q hq
    have hq2 := (List.mem_insertionSort _).mp hq
    obtain ⟨r0, hr0, rfl⟩ := List.mem_map.mp hq2
    have hkey := viewKey_projectRow t cols pk r0 hmem
    have hne : cellByName t r0 pk ≠ .null := fun he =>
      hnull (he ▸ List.mem_map_of_mem _ (List.mem_filter.mp hr0).1)
    exact viewKey_fillRow _ _ _ (by rw [hkey]; exact hne)
  have hmapfill :
      ((sharedView t pk K cols).rows.map (viewKey cols pk)) =
      (List.insertionSort (rowLe ((findIdxO pk cols).getD cols.length))
        ((t.rows.filter (fun r => decide (cellByName t r pk ∈ K))).map
          (projectRow t cols))).map (viewKey cols pk) := by
    show (List.map _ (List.map _ _)) = _
    rw [List.map_map]
    exact List.map_congr_left hproj
  constructor
  · rw [hmapfill]
    exact List.pairwise_map.mpr
      (List.sorted_insertionSort (rowLe ((findIdxO pk cols).getD cols.length)) _)
  · rw [hmapfill]
    have hperm1 : (List.insertionSort
        (rowLe ((findIdxO pk cols).getD cols.length))
        ((t.rows.filter (fun r => decide (cellByName t r pk ∈ K))).map
          (projectRow t cols))).map (viewKey cols pk) |>.Perm
        (((t.rows.filter (fun r => decide (cellByName t r pk ∈ K))).map
          (projectRow t cols)).map (viewKey cols pk)) :=
      (List.perm_insertionSort _ _).map _
    have heq2 : (((t.rows.filter (fun r => decide (cellByName t r pk ∈ K))).map
          (projectRow t cols)).map (viewKey cols pk)) =
        ((pkList t pk).filter (fun v => decide (v ∈ K))) := by
      rw [List.map_map]
      have : (t.rows.filter (fun r => decide (cellByName t r pk ∈ K))).map
          (viewKey cols pk ∘ projectRow t cols) =
          (t.rows.filter (fun r => decide (cellByName t r pk ∈ K))).map
          (fun r => cellByName t r pk) :=
        List.map_congr_left (fun r0 _ => viewKey_projectRow t cols pk r0 hmem)
      rw [this]
      exact map_filter_comm (fun r => cellByName t r pk) (fun v => decide (v ∈ K)) t.rows
    rw [heq2] at hperm1
    exact hperm1

theorem sharedView_rows_map_eq (t : Table) (pk : String) (K : Finset Value)
    (cols : List String) (hmem : pk ∈ cols) (hnd : (pkList t pk).Nodup)
    (hnull : Value.null ∉ pkList t pk) :
    (sharedView t pk K cols).rows =
      ((sharedView t pk K cols).rows.map (viewKey cols pk)).map
        (viewRowForKey t cols pk) := by
  rw [List.map_map]
  have h1 : (sharedView t pk K cols).rows.map
      (viewRowForKey t cols pk ∘ viewKey cols pk) =
      (sharedView t pk K cols).rows.map (fun r => r) :=
    List.map_congr_left (fun r hr => viewRowForKey_of_mem hmem hnd hnull r hr)
  rw [h1, List.map_id']

theorem extractor_ok_views {old_df new_df : Table} {pk : String}
    {sub : Option (List String)} {so sn : Table}
    (hext : get_records_in_both_tables old_df new_df pk sub = .ok (so, sn)) :
    so = sharedView old_df pk (sharedKeys old_df new_df pk)
      (effectiveCols old_df new_df pk sub) ∧
    sn = sharedView new_df pk (sharedKeys old_df new_df pk)
      (effectiveCols old_df new_df pk sub) := by
  revert hext
  unfold get_records_in_both_tables
  cases sub with
  | none =>
      intro hext
      cases hext
      exact ⟨rfl, rfl⟩
  | some s =>
      dsimp only
      split
      · intro hext
        cases hext
        exact ⟨rfl, rfl⟩
      · intro hext
        cases hext

theorem rowDiff_cons (a b : Value) (r s : List Value) :
    rowDiff (a :: r) (b :: s) = rowDiff r s + (if a = b then 0 else 1) := by
  unfold rowDiff
  rw [List.zip_cons_cons, List.countP_cons]
  by_cases h : a = b <;> simp [h]

theorem rowDiff_eq_zero_iff : ∀ {r s : List Value}, r.length = s.length →
    (rowDiff r s = 0 ↔ r = s) := by
  intro r
  induction r with
  | nil =>
      intro s h
      cases s with
      | nil => simp [rowDiff]
      | cons b t => simp at h
  | cons a r ih =>
      intro s h
      cases s with
      | nil => simp at h
      | cons b t =>
          have hlen : r.length = t.length := by simpa using h
          rw [rowDiff_cons]
          by_cases hab : a = b
          · simp [hab, ih hlen]
          · simp [hab]

theorem viewRowForKey_length (t : Table) (pk : String) (cols : List String)
    (k : Value) (hk : k ∈ pkList t pk) :
    (viewRowForKey t cols pk k).length = cols.length := by
  obtain ⟨r, hr, hcell⟩ := List.mem_map.mp hk
  unfold viewRowForKey
  cases hfind : t.rows.find? (fun r2 => decide (cellByName t r2 pk = k)) with
  | none =>
      exfalso
      have h2 := List.find?_eq_none.mp hfind r hr
      simp only [decide_eq_true_eq] at h2
      exact h2 hcell
  | some q =>
      show (fillRow (projectRow t cols q)).length = cols.length
      unfold fillRow projectRow
      rw [List.length_map, List.length_map]

theorem countP_toFinset_card (ks : List Value) (hnd : ks.Nodup) (p : Value → Bool) :
    ks.countP p = (ks.toFinset.filter (fun v => p v = true)).card := by
  rw [List.countP_eq_length_filter, ← List.toFinset_card_of_nodup (hnd.filter p),
    List.toFinset_filter]

theorem toFinset_filter_mem (l : List Value) (K : Finset Value)
    (h : K ⊆ l.toFinset) :
    (l.filter (fun v => decide (v ∈ K))).toFinset = K := by
  rw [List.toFinset_filter]
  ext x
  simp only [Finset.mem_filter, decide_eq_true_eq]
  exact ⟨fun hx => hx.2, fun hx => ⟨h hx, hx⟩⟩

theorem reportedChangedCount_chgReport (so sn : Table) (pk : String) :
    reportedChangedCount (chgReport so sn pk) =
      ((pairedRows so sn).filter (fun p => decide (0 < rowDiff p.1 p.2))).length := by
  have hlen : (recordsWithChanges so sn pk).length =
      ((pairedRows so sn).filter (fun p => decide (0 < rowDiff p.1 p.2))).length := by
    unfold recordsWithChanges
    rw [List.length_map]
  unfold reportedChangedCount chgReport
  dsimp only
  split
  · rename_i h
    show (Option.getD none []).length = _
    rw [← hlen, h]
    rfl
  · rename_i h
    show (recordsWithChanges so sn pk).length = _
    exact hlen

/-- C2: under the data-model invariants (primary key present in both
tables, unique and non-missing), the changed-record count reported by
the value differ equals the number of shared primary-key values whose
aligned old-view and new-view rows differ in at least one shared
column; and when the section reports equality, every aligned row pair
has zero differing columns. -/
theorem c2_value_differ_count (old_df new_df : Table) (pk : String)
    (sub : Option (List String)) (so sn : Table)
    (hpo : pk ∈ colNames old_df) (hpn : pk ∈ colNames new_df)
    (hno : (pkList old_df pk).Nodup) (hnn : (pkList new_df pk).Nodup)
    (hnullo : Value.null ∉ pkList old_df pk)
    (hnulln : Value.null ∉ pkList new_df pk)
    (hext : get_records_in_both_tables old_df new_df pk sub = .ok (so, sn)) :
    ∃ rep, check_chg_in_values old_df new_df pk sub = .ok rep ∧
      reportedChangedCount rep =
        (specChangedKeys old_df new_df pk (effectiveCols old_df new_df pk sub)).card ∧
      (rep.is_equal = true → ∀ p ∈ pairedRows so sn, rowDiff p.1 p.2 = 0) := by
  obtain ⟨hso, hsn⟩ := extractor_ok_views hext
  have hpkcols : pk ∈ effectiveCols old_df new_df pk sub := by
    cases sub with
    | none =>
        show pk ∈ sharedColumns old_df new_df
        unfold sharedColumns
        rw [List.mem_filter]
        exact ⟨List.mem_dedup.mpr hpo, by simpa using hpn⟩
    | some s =>
        show pk ∈ (if pk ∈ s then s else s ++ [pk])
        by_cases hmem : pk ∈ s
        · rw [if_pos hmem]; exact hmem
        · rw [if_neg hmem]
          exact List.mem_append.mpr (Or.inr (by simp))
  subst hso
  subst hsn
  set cols := effectiveCols old_df new_df pk sub with hcolsdef
  set K := sharedKeys old_df new_df pk with hKdef
  set Vo := sharedView old_df pk K cols with hVodef
  set Vn := sharedView new_df pk K cols with hVndef
  obtain ⟨hsort_o, hperm_o⟩ := sharedView_keys_spec old_df pk K cols hpkcols hnullo
  obtain ⟨hsort_n, hperm_n⟩ := sharedView_keys_spec new_df pk K cols hpkcols hnulln
  have hLo_nd := hno.filter (fun v => decide (v ∈ K))
  have hLn_nd := hnn.filter (fun v => decide (v ∈ K))
  have hLo_fin : ((pkList old_df pk).filter (fun v => decide (v ∈ K))).toFinset = K := by
    apply toFinset_filter_mem
    rw [hKdef]
    exact Finset.inter_subset_left
  have hLn_fin : ((pkList new_df pk).filter (fun v => decide (v ∈ K))).toFinset = K := by
    apply toFinset_filter_mem
    rw [hKdef]
    exact Finset.inter_subset_right
  have hLoLn := List.perm_of_nodup_nodup_toFinset_eq hLo_nd hLn_nd
    (by rw [hLo_fin, hLn_fin])
  have hkeq : Vo.rows.map (viewKey cols pk) = Vn.rows.map (viewKey cols pk) :=
    List.eq_of_perm_of_sorted (hperm_o.trans (hLoLn.trans hperm_n.symm))
      hsort_o hsort_n
  set ks := Vo.rows.map (viewKey cols pk) with hksdef
  have hks_nd : ks.Nodup := (hperm_o.nodup_iff).mpr hLo_nd
  have hks_fin : ks.toFinset = K :=
    (List.toFinset_eq_of_perm _ _ hperm_o).trans hLo_fin
  have hrows_o : Vo.rows = ks.map (viewRowForKey old_df cols pk) :=
    sharedView_rows_map_eq old_df pk K cols hpkcols hno hnullo
  have hrows_n : Vn.rows = ks.map (viewRowForKey new_df cols pk) := by
    have h2 := sharedView_rows_map_eq new_df pk K cols hpkcols hnn hnulln
    rw [← hkeq] at h2
    exact h2
  have hpair : pairedRows Vo Vn = ks.map
      (fun k => (viewRowForKey old_df cols pk k, viewRowForKey new_df cols pk k)) := by
    show Vo.rows.zip Vn.rows = _
    rw [hrows_o, hrows_n, List.zip_map']
  have hmem_of_ks : ∀ k ∈ ks, k ∈ pkList old_df pk ∧ k ∈ pkList new_df pk := by
    intro k hk
    have hkK : k ∈ K := by
      rw [← hks_fin]
      exact List.mem_toFinset.mpr hk
    rw [hKdef] at hkK
    unfold sharedKeys at hkK
    have h1 := Finset.mem_inter.mp hkK
    exact ⟨List.mem_toFinset.mp h1.1, List.mem_toFinset.mp h1.2⟩
  have hcount : ((pairedRows Vo Vn).filter
      (fun p => decide (0 < rowDiff p.1 p.2))).length =
      (specChangedKeys old_df new_df pk cols).card := by
    rw [hpair, ← List.countP_eq_length_filter, List.countP_map]
    have hcongr : ∀ k ∈ ks,
        (((fun p => decide (0 < rowDiff p.1 p.2)) ∘
          (fun k => (viewRowForKey old_df cols pk k,
                     viewRowForKey new_df cols pk k))) k = true) ↔
        ((fun k2 => decide (viewRowForKey old_df cols pk k2 ≠
                            viewRowForKey new_df cols pk k2)) k = true) := by
      intro k hk
      obtain ⟨hko, hkn⟩ := hmem_of_ks k hk
      have hlo := viewRowForKey_length old_df pk cols k hko
      have hln := viewRowForKey_length new_df pk cols k hkn
      simp only [Function.comp, decide_eq_true_eq]
      rw [Nat.pos_iff_ne_zero]
      constructor
      · intro h he
        exact h ((rowDiff_eq_zero_iff (by rw [hlo, hln])).mpr he)
      · intro h hd
        exact h ((rowDiff_eq_zero_iff (by rw [hlo, hln])).mp hd)
    rw [List.countP_congr hcongr]
    rw [countP_toFinset_card ks hks_nd, hks_fin]
    unfold specChangedKeys
    rw [← hKdef]
    congr 1
    apply Finset.filter_congr
    intro x _
    simp
  refine ⟨chgReport Vo Vn pk, check_chg_in_values_eq hext, ?_, ?_⟩
  · rw [reportedChangedCount_chgReport, hcount]
  · intro hiseq p hp
    have hlen0 : (recordsWithChanges Vo Vn pk).length = 0 := by
      by_contra hne
      have hfalse : (chgReport Vo Vn pk).is_equal = false := by
        unfold chgReport
        dsimp only
        rw [if_neg hne]
      rw [hiseq] at hfalse
      exact absurd hfalse (by decide)
    have hfil0 : ((pairedRows Vo Vn).filter
        (fun p => decide (0 < rowDiff p.1 p.2))).length = 0 := by
      have h2 : (recordsWithChanges Vo Vn pk).length =
          ((pairedRows Vo Vn).filter
            (fun p => decide (0 < rowDiff p.1 p.2))).length := by
        unfold recordsWithChanges
        rw [List.length_map]
      rw [← h2]
      exact hlen0
    have h3 := List.countP_eq_zero.mp
      (by rw [List.countP_eq_length_filter]; exact hfil0) p hp
    simp only [decide_eq_true_eq] at h3
    exact Nat.eq_zero_of_not_pos h3

/-- C2 witness: two concrete tables where exactly the key-2 row changed
— the reported count and the spec-side count both evaluate to 1. -/
theorem c2_witness :
    ∃ rep, check_chg_in_values tValOld tValNew "A" none = .ok rep ∧
      reportedChangedCount rep =
        (specChangedKeys tValOld tValNew "A"
          (effectiveCols tValOld tValNew "A" none)).card ∧
      (rep.is_equal = true →
        ∀ p ∈ pairedRows
          { header := [("A", "int64"), ("B", "int64")],
            rows := [[Value.int 1, Value.int 10], [Value.int 2, Value.int 20]] }
          { header := [("A", "int64"), ("B", "int64")],
            rows := [[Value.int 1, Value.int 10], [Value.int 2, Value.int 99]] },
          rowDiff p.1 p.2 = 0) :=
  c2_value_differ_count tValOld tValNew "A" none _ _ (by decide) (by decide)
    (by decide) (by decide) (by decide) (by decide) rfl
